import Mathlib

/-!
Verification development for the Leopard-EM manuscript batch-orchestration
scripts (`process_all_micrographs.py`, `process_all_micrographs_refine.py`,
`process_all_micrographs_constrained.py`, `export_relion.py`).

The scripts are shallowly embedded: pure Python string/path manipulation is
translated function-by-function; filesystem state is threaded explicitly as an
association list from paths to file data; Python exceptions become an
`Except PyErr` result; the external compute engine (the Leopard-EM manager
objects) is an opaque parameter supplying the behaviour of each stage's run
call, as the spec declares it an external collaborator.
-/

/-- Python exception kinds raised or handled by the orchestrator scripts.
`keyboardInterrupt` is special: in Python 3 it is not a subclass of
`Exception`, so bare `except Exception` handlers do not catch it. -/
inductive PyErr where
  | valueError (msg : String)
  | keyError (key : String)
  | typeError (msg : String)
  | fileNotFound (path : String)
  | permissionError (msg : String)
  | importError (msg : String)
  | keyboardInterrupt
  | engineError (msg : String)
  deriving Repr, DecidableEq

/-- Whether a bare `except Exception` handler catches this error
(everything except an operator interrupt). -/
def PyErr.isException : PyErr → Bool
  | .keyboardInterrupt => false
  | _ => true

deriving instance DecidableEq for Except

/-! ## Python string primitives used by the scripts -/

/-- Python whitespace characters recognised by `str.split()`. -/
def isPySpace (c : Char) : Bool :=
  c = ' ' ∨ c = '\t' ∨ c = '\n' ∨ c = '\r' ∨ c = '\x0b' ∨ c = '\x0c'

/-- Helper for `pySplitWs`: accumulate the current word while scanning. -/
def splitWsAux : List Char → List Char → List (List Char)
  | [], [] => []
  | [], acc => [acc.reverse]
  | c :: rest, acc =>
      if isPySpace c then
        if acc = [] then splitWsAux rest []
        else acc.reverse :: splitWsAux rest []
      else splitWsAux rest (c :: acc)

/-- Python `s.split()` (no argument): split on runs of whitespace, with no
leading or trailing empty fields; `s.strip().split()` coincides with it. -/
def pySplitWs (s : String) : List String :=
  (splitWsAux s.data []).map String.mk

/-- Python `s.split(sep)[0]`: the prefix of `s` before its first `.`
(used as the micrograph base name in `create_yaml_for_micrograph`). -/
def takeBeforeFirstDot (s : String) : String :=
  String.mk (s.data.takeWhile (· ≠ '.'))

/-- Numeric value of a digit run (used by the regex embeddings). -/
def natOfDigits (cs : List Char) : Nat :=
  cs.foldl (fun a c => a * 10 + (c.toNat - 48)) 0

/-- Model of Python `float(s)` on plain decimal literals: optional sign,
digits, optional single decimal point; `none` models the `ValueError` that
`float` raises on a malformed field.  (Exponent notation and the `inf`/`nan`
spellings are outside what the CTF diagnostic files carry.) -/
def pyFloat? (s : String) : Option ℚ :=
  let withSign : ℚ × List Char :=
    match s.data with
    | '-' :: rest => (-1, rest)
    | '+' :: rest => (1, rest)
    | cs => (1, cs)
  let sign := withSign.1
  let body := withSign.2
  let intPart := body.takeWhile (· ≠ '.')
  match body.drop intPart.length with
  | [] =>
      if intPart ≠ [] ∧ intPart.all Char.isDigit then
        some (sign * (natOfDigits intPart : ℚ))
      else none
  | '.' :: frac =>
      if (intPart ≠ [] ∨ frac ≠ []) ∧ intPart.all Char.isDigit ∧ frac.all Char.isDigit then
        some (sign * ((natOfDigits intPart : ℚ) +
          (natOfDigits frac : ℚ) / ((10 : ℚ) ^ frac.length)))
      else none
  | _ => none

/-! ## posixpath primitives (`os.path.basename` / `dirname` / `join` /
`splitext`), translated from CPython's `posixpath` module. -/

/-- `os.path.basename`: everything after the last `/`. -/
def pyBasename (p : String) : String :=
  String.mk ((p.data.reverse.takeWhile (· ≠ '/')).reverse)

/-- `os.path.dirname`: everything up to the last `/`, with trailing slashes
stripped unless the head consists only of slashes. -/
def pyDirname (p : String) : String :=
  let headRev := p.data.reverse.dropWhile (· ≠ '/')
  let headRev2 :=
    if headRev ≠ [] ∧ headRev.any (· ≠ '/') then headRev.dropWhile (· = '/')
    else headRev
  String.mk headRev2.reverse

/-- Python `s.startswith(c)` for a single-character pattern (spelled over
the character list so it computes by structural recursion). -/
def strHeadIs (s : String) (c : Char) : Bool :=
  s.data.head? = some c

/-- Python `s.endswith(c)` for a single-character pattern. -/
def strLastIs (s : String) (c : Char) : Bool :=
  s.data.getLast? = some c

/-- `os.path.join` for two components (the only arity the scripts use). -/
def pathJoin (a b : String) : String :=
  if strHeadIs b '/' then b
  else if a = "" ∨ strLastIs a '/' then a ++ b
  else a ++ "/" ++ b

/-- `os.path.splitext(p)[0]`: drop the extension after the last dot of the
final component, unless that component's part before the dot is empty or all
dots (so `.bashrc` keeps its name, as in CPython). -/
def splitextRoot (p : String) : String :=
  let b := (pyBasename p).data
  if b.contains '.' then
    let after := b.reverse.takeWhile (· ≠ '.')
    let before := b.take (b.length - after.length - 1)
    if before.any (· ≠ '.') then
      String.mk (p.data.take (p.data.length - after.length - 1))
    else p
  else p

/-! ## Nested key-value configuration documents.

The spec treats structured-document parsing as an external capability
("load/modify/save a nested key-value document"); the document itself is
modelled as a tree.  Python `dict`s preserve insertion order and update
values in place, which `setEntry` mirrors. -/

inductive Yaml where
  | str (s : String)
  | int (n : Int)
  | rat (q : ℚ)
  | bool (b : Bool)
  | list (xs : List Yaml)
  | dict (entries : List (String × Yaml))

/-- Lookup of a key in a document mapping (first occurrence). -/
def lookupEntry : List (String × Yaml) → String → Option Yaml
  | [], _ => none
  | (k, v) :: rest, key => if k = key then some v else lookupEntry rest key

/-- Python dict assignment: replace the value in place when the key exists
(preserving order), otherwise append the new binding. -/
def setEntry : List (String × Yaml) → String → Yaml → List (String × Yaml)
  | [], key, v => [(key, v)]
  | (k, w) :: rest, key, v =>
      if k = key then (k, v) :: rest else (k, w) :: setEntry rest key v

/-- `config[key]`: `KeyError` on a missing key, `TypeError` when the value
is not subscriptable. -/
def Yaml.getItem : Yaml → String → Except PyErr Yaml
  | .dict es, key =>
      match lookupEntry es key with
      | some v => .ok v
      | none => .error (.keyError key)
  | _, _ => .error (.typeError "object is not subscriptable")

/-- `config[key] = v` on a mapping. -/
def Yaml.setItem : Yaml → String → Yaml → Except PyErr Yaml
  | .dict es, key, v => .ok (.dict (setEntry es key v))
  | _, _, _ => .error (.typeError "object does not support item assignment")

/-- `config[k1][k2] = v`: in Python this mutates the inner mapping in place;
with tree-valued documents that is rebuilding the outer binding. -/
def Yaml.setItem2 (y : Yaml) (k1 k2 : String) (v : Yaml) : Except PyErr Yaml := do
  let inner ← y.getItem k1
  let inner2 ← inner.setItem k2 v
  y.setItem k1 inner2

/-- The key sequence of a mapping (`for key in config[...]` iterates keys in
insertion order; per the configuration schema this group is a mapping). -/
def Yaml.dictKeys : Yaml → Except PyErr (List String)
  | .dict es => .ok (es.map Prod.fst)
  | _ => .error (.typeError "object is not iterable as a mapping")

/-! ## Filesystem state.

Serialized file content is held behind constructors: the spec declares text
serialization (YAML load/dump, CSV read/write, image I/O) an external
capability, so a YAML file holds its document, a tabular artifact its row
count (the only thing the orchestrators inspect), and image data is opaque. -/

inductive FileData where
  | text (lines : List String)
  | ydoc (y : Yaml)
  | table (rows : Nat)
  | binary

abbrev FS := List (String × FileData)

/-- Content of the file at `p`, when it exists. -/
def fsGet : FS → String → Option FileData
  | [], _ => none
  | (q, d) :: rest, p => if q = p then some d else fsGet rest p

/-- `os.path.exists`. -/
def fsExists (fs : FS) (p : String) : Bool :=
  (fsGet fs p).isSome

/-- Writing a file: replace existing content or create the file. -/
def fsWrite : FS → String → FileData → FS
  | [], p, d => [(p, d)]
  | (q, e) :: rest, p, d =>
      if q = p then (q, d) :: rest else (q, e) :: fsWrite rest p d

/-- `open(p).readlines()`-style access to a line-oriented text file;
a missing file raises `FileNotFoundError`. -/
def readTextLines (fs : FS) (p : String) : Except PyErr (List String) :=
  match fsGet fs p with
  | some (.text lines) => .ok lines
  | some _ => .error (.valueError ("not a text file: " ++ p))
  | none => .error (.fileNotFound p)

/-- `yaml.safe_load(open(p))`: the parsed document of a configuration file. -/
def readYamlDoc (fs : FS) (p : String) : Except PyErr Yaml :=
  match fsGet fs p with
  | some (.ydoc y) => .ok y
  | some _ => .error (.valueError ("could not parse as yaml: " ++ p))
  | none => .error (.fileNotFound p)

/-- `pd.read_csv(p)`: the row count of a tabular artifact (the scripts only
ever test `len(df)`); a malformed file raises a parse error. -/
def readTableRows (fs : FS) (p : String) : Except PyErr Nat :=
  match fsGet fs p with
  | some (.table rows) => .ok rows
  | some _ => .error (.valueError ("could not parse as csv: " ++ p))
  | none => .error (.fileNotFound p)

/-! ## `process_all_micrographs.py` (match stage) -/

/-- Leading digit run of a character sequence (the greedy match of one
regex group such as a digit group followed by a literal underscore). -/
def digitsPrefix (cs : List Char) : List Char :=
  cs.takeWhile Char.isDigit

/-- Attempt of the regex `xenon_(\d+)_(\d+)_` at the head of `cs`. -/
def matchXenonAt (cs : List Char) : Option (String × String) :=
  match cs with
  | 'x' :: 'e' :: 'n' :: 'o' :: 'n' :: '_' :: rest =>
      let d1 := digitsPrefix rest
      if d1 = [] then none
      else
        match rest.drop d1.length with
        | '_' :: rest2 =>
            let d2 := digitsPrefix rest2
            if d2 = [] then none
            else
              match rest2.drop d2.length with
              | '_' :: _ => some (String.mk d1, String.mk d2)
              | _ => none
        | _ => none
  | _ => none

/-- `re.search` for that pattern: the leftmost position where it matches. -/
def searchXenon : List Char → Option (String × String)
  | [] => none
  | c :: rest =>
      match matchXenonAt (c :: rest) with
      | some r => some r
      | none => searchXenon rest

/-- `extract_micrograph_number` of the match/constrained scripts: the two
captured digit groups joined by an underscore, or `None`. -/
def extract_micrograph_number (filename : String) : Option String :=
  (searchXenon filename.data).map (fun r => r.1 ++ "_" ++ r.2)

/-- `get_ctf_parameters`: scan the CTF diagnostic file line by line, skip
`#`-prefixed comment lines, and on the first line with at least five
whitespace-separated fields convert fields 1, 2 and 3 with `float` and
return them; lines with fewer fields are skipped, and when no line
qualifies the Python function returns `(None, None, None)`, modelled as
`ok none`.  A malformed numeric field raises `ValueError`. -/
def get_ctf_parameters : List String → Except PyErr (Option (ℚ × ℚ × ℚ))
  | [] => .ok none
  | line :: rest =>
      if strHeadIs line '#' then get_ctf_parameters rest
      else
        let parts := pySplitWs line
        if 5 ≤ parts.length then
          match pyFloat? (parts.getD 1 "") with
          | none => .error (.valueError "could not convert string to float")
          | some defocus_1 =>
            match pyFloat? (parts.getD 2 "") with
            | none => .error (.valueError "could not convert string to float")
            | some defocus_2 =>
              match pyFloat? (parts.getD 3 "") with
              | none => .error (.valueError "could not convert string to float")
              | some astigmatism_angle => .ok (some (defocus_1, defocus_2, astigmatism_angle))
        else get_ctf_parameters rest

/-- The parsing step of `get_ctf_parameters` on one qualifying line:
`float` of the whitespace-separated fields at positions 1, 2 and 3 (helper
used to state which line supplies the calibration triple). -/
def parseCtfTriple (line : String) : Except PyErr (Option (ℚ × ℚ × ℚ)) :=
  match pyFloat? ((pySplitWs line).getD 1 "") with
  | none => .error (.valueError "could not convert string to float")
  | some defocus_1 =>
    match pyFloat? ((pySplitWs line).getD 2 "") with
    | none => .error (.valueError "could not convert string to float")
    | some defocus_2 =>
      match pyFloat? ((pySplitWs line).getD 3 "") with
      | none => .error (.valueError "could not convert string to float")
      | some astigmatism_angle => .ok (some (defocus_1, defocus_2, astigmatism_angle))

/-- The rewritten value of one output-artifact path in
`create_yaml_for_micrograph`: the results directory joined with the original
filename prefixed by the micrograph base name.  (Helper used to state the
rewrite's effect; the rewrite itself is `rewriteOne` below.) -/
def rewriteVal (base resultsDir : String) : Yaml → Yaml
  | .str s => .str (pathJoin resultsDir (base ++ "_" ++ pyBasename s))
  | v => v

/-- One iteration of the output-path rewriting loop of
`create_yaml_for_micrograph`: keys other than `allow_file_overwrite` get
their path's filename prefixed with the base name and relocated into
`resultsDir`; `os.path.basename` on a non-string raises `TypeError`. -/
def rewriteOne (config : Yaml) (base resultsDir key : String) : Except PyErr Yaml :=
  if key = "allow_file_overwrite" then .ok config
  else do
    let mtr ← config.getItem "match_template_result"
    let original_path ← mtr.getItem key
    match original_path with
    | .str s =>
        let new_path := pathJoin resultsDir (base ++ "_" ++ pyBasename s)
        config.setItem2 "match_template_result" key (.str new_path)
    | _ => .error (.typeError "expected str, bytes or os.PathLike object")

/-- The full `for key in config['match_template_result']` rewriting loop. -/
def rewriteKeys (config : Yaml) (keys : List String) (base resultsDir : String) :
    Except PyErr Yaml :=
  match keys with
  | [] => .ok config
  | k :: rest => do
      let config2 ← rewriteOne config base resultsDir k
      rewriteKeys config2 rest base resultsDir

/-- The pure document transformation of `create_yaml_for_micrograph`:
overlay micrograph path, the three calibration fields, the GPU list, and
rewrite every output path in the `match_template_result` group. -/
def derive_match_config (config0 : Yaml) (micrograph_path : String)
    (defocus_1 defocus_2 astigmatism_angle : ℚ) (output_path : String)
    (gpu_ids : List Int) : Except PyErr Yaml := do
  let config ← config0.setItem "micrograph_path" (.str micrograph_path)
  let config ← config.setItem2 "optics_group" "defocus_u" (.rat defocus_1)
  let config ← config.setItem2 "optics_group" "defocus_v" (.rat defocus_2)
  let config ← config.setItem2 "optics_group" "astigmatism_angle" (.rat astigmatism_angle)
  let config ← config.setItem2 "computational_config" "gpu_ids" (.list (gpu_ids.map Yaml.int))
  let micrograph_basename := takeBeforeFirstDot (pyBasename micrograph_path)
  let results_dir := pyDirname output_path
  let mtr ← config.getItem "match_template_result"
  let keys ← mtr.dictKeys
  rewriteKeys config keys micrograph_basename results_dir

/-- `create_yaml_for_micrograph`: load the template document, apply the
pure overlay/rewrite, and persist the derived document at `output_path`. -/
def create_yaml_for_micrograph (fs : FS) (template_yaml_path micrograph_path : String)
    (defocus_1 defocus_2 astigmatism_angle : ℚ) (output_path : String)
    (gpu_ids : List Int) : Except PyErr (Yaml × FS) := do
  let config0 ← readYamlDoc fs template_yaml_path
  let config ← derive_match_config config0 micrograph_path defocus_1 defocus_2
    astigmatism_angle output_path gpu_ids
  .ok (config, fsWrite fs output_path (.ydoc config))

/-- Behaviour of the external match-template engine
(`MatchTemplateManager.from_yaml` + `run_match_template` +
`results_to_dataframe`), opaque to the orchestrator: given the derived
document and the batch size it produces a result table (its row count) or
raises. -/
structure MatchEngine where
  run : Yaml → Nat → Except PyErr Nat

/-- `process_micrograph`: one item of the match stage.  Identifier
extraction, CTF lookup and parsing, and config derivation happen before the
`try` block, so an exception there propagates; only the engine section is
guarded, and its `except Exception` does not catch an operator interrupt. -/
def process_micrograph (eng : MatchEngine) (fs : FS)
    (micrograph_path template_yaml ctfs_dir output_dir : String)
    (gpu_ids : List Int) (batch_size : Nat) : Except PyErr (Bool × FS) := do
  let micrograph_basename := pyBasename micrograph_path
  match extract_micrograph_number micrograph_basename with
  | none => .ok (false, fs)
  | some micrograph_number =>
    let ctf_file_path := pathJoin ctfs_dir ("xenon_" ++ micrograph_number ++ "_0.0_diagnostic.txt")
    if fsExists fs ctf_file_path = false then .ok (false, fs)
    else do
      let lines ← readTextLines fs ctf_file_path
      let ctf ← get_ctf_parameters lines
      match ctf with
      | none => .ok (false, fs)
      | some (defocus_1, defocus_2, astigmatism_angle) => do
        let custom_yaml_path :=
          pathJoin output_dir (splitextRoot micrograph_basename ++ "_config.yaml")
        let (_, fs2) ← create_yaml_for_micrograph fs template_yaml micrograph_path
          defocus_1 defocus_2 astigmatism_angle custom_yaml_path gpu_ids
        let attempt : Except PyErr (Bool × FS) := do
          let cfg ← readYamlDoc fs2 custom_yaml_path
          let rows ← eng.run cfg batch_size
          let csv_path := pathJoin output_dir (splitextRoot micrograph_basename ++ "_results.csv")
          .ok (true, fsWrite fs2 csv_path (.table rows))
        match attempt with
        | .ok r => .ok r
        | .error e => if e.isException then .ok (false, fs2) else .error e

/-- `is_already_processed`: the resume check of the match stage only — a
micrograph is done when `<stem>_results.csv` exists in the output
directory. -/
def is_already_processed (fs : FS) (micrograph_path output_dir : String) : Bool :=
  fsExists fs (pathJoin output_dir (splitextRoot (pyBasename micrograph_path) ++ "_results.csv"))

/-- Python slice-index normalisation for `l[a:b]`. -/
def pySliceIdx (n : Nat) (i : Int) : Nat :=
  if i < 0 then (max 0 ((n : Int) + i)).toNat else min i.toNat n

/-- Python `l[a:b]`. -/
def pySlice {α : Type} (l : List α) (a b : Int) : List α :=
  (l.take (pySliceIdx l.length b)).drop (pySliceIdx l.length a)

/-- The optional range-selection arguments shared by all three
orchestrators: SLURM array-job index and size, and the explicit start/end
pair. -/
structure RangeArgs where
  job_idx : Option Int
  jobs_per_array : Option Int
  start_idx : Option Int
  end_idx : Option Int

/-- The range-selection logic of every orchestrator's `main`: array-job
mode when both of its parameters are given, otherwise the explicit
start/end mode when either bound is given, otherwise the full list. -/
def selectRange {α : Type} (files : List α) (r : RangeArgs) : List α :=
  match r.job_idx, r.jobs_per_array with
  | some j, some k =>
      let s := (j - 1) * k
      pySlice files s (min (s + k) (files.length : Int))
  | _, _ =>
      match r.start_idx, r.end_idx with
      | none, none => files
      | s, e => pySlice files (s.getD 0) (e.getD (files.length : Int))

/-- The per-item loop of the match stage's `main`: sequential, counting
successes; an exception escaping `process_micrograph` propagates and stops
the whole run. -/
def processLoop (eng : MatchEngine) (fs : FS) (files : List String)
    (template_yaml ctfs_dir output_dir : String) (gpu_ids : List Int)
    (batch_size : Nat) : Except PyErr (Nat × FS) :=
  match files with
  | [] => .ok (0, fs)
  | f :: rest => do
      let (r, fs2) ← process_micrograph eng fs f template_yaml ctfs_dir output_dir gpu_ids batch_size
      let (n, fs3) ← processLoop eng fs2 rest template_yaml ctfs_dir output_dir gpu_ids batch_size
      .ok ((if r then 1 else 0) + n, fs3)

/-- `main` of the match script from the point where the sorted discovery
list is in hand: exit 1 when discovery found nothing; drop
already-processed items; exit 0 when none remain; apply range selection
and run the loop; exit 0 on completion.  The returned `Int` is the process
exit status; a propagating exception is the `Except.error` case. -/
def matchMain (eng : MatchEngine) (fs : FS) (files : List String)
    (template_yaml ctfs_dir output_dir : String) (gpu_ids : List Int)
    (batch_size : Nat) (r : RangeArgs) : Except PyErr (Int × FS) :=
  if files = [] then .ok (1, fs)
  else
    let unprocessed := files.filter (fun f => !is_already_processed fs f output_dir)
    if unprocessed = [] then .ok (0, fs)
    else do
      let sel := selectRange unprocessed r
      let (_, fs2) ← processLoop eng fs sel template_yaml ctfs_dir output_dir gpu_ids batch_size
      .ok (0, fs2)

/-! ## `process_all_micrographs_refine.py` (refine stage) -/

/-- `extract_numeric_micrograph_id` (regex `xenon_(\d+)_`): attempt at the
head of the character list. -/
def matchXenonIdAt (cs : List Char) : Option Int :=
  match cs with
  | 'x' :: 'e' :: 'n' :: 'o' :: 'n' :: '_' :: rest =>
      let d := digitsPrefix rest
      if d = [] then none
      else
        match rest.drop d.length with
        | '_' :: _ => some (natOfDigits d : Int)
        | _ => none
  | _ => none

/-- `re.search` for `xenon_(\d+)_`. -/
def searchXenonId : List Char → Option Int
  | [] => none
  | c :: rest =>
      match matchXenonIdAt (c :: rest) with
      | some r => some r
      | none => searchXenonId rest

/-- `extract_numeric_micrograph_id` of the refine/constrained scripts. -/
def extract_numeric_micrograph_id (filename : String) : Option Int :=
  searchXenonId filename.data

/-- The pure document transformation of `create_yaml_for_refinement`:
overlay the template volume path, the previous-stage table path and the GPU
list; the refine stage performs no output-path rewriting. -/
def derive_refine_config (config0 : Yaml) (match_results_csv template_volume_path : String)
    (gpu_ids : List Int) : Except PyErr Yaml := do
  let config ← config0.setItem "template_volume_path" (.str template_volume_path)
  let config ← config.setItem2 "particle_stack" "df_path" (.str match_results_csv)
  config.setItem2 "computational_config" "gpu_ids" (.list (gpu_ids.map Yaml.int))

/-- `create_yaml_for_refinement`: load the template, overlay, persist. -/
def create_yaml_for_refinement (fs : FS)
    (template_yaml_path match_results_csv output_yaml_path template_volume_path : String)
    (gpu_ids : List Int) : Except PyErr (Yaml × FS) := do
  let config0 ← readYamlDoc fs template_yaml_path
  let config ← derive_refine_config config0 match_results_csv template_volume_path gpu_ids
  .ok (config, fsWrite fs output_yaml_path (.ydoc config))

/-- Behaviour of the external refine-template engine
(`RefineTemplateManager.from_yaml` + `run_refine_template`): from the
derived document and batch size, the row count of the table it writes to
the output CSV, or a raised error. -/
structure RefineEngine where
  run : Yaml → Nat → Except PyErr Nat

/-- `process_micrograph_refinement`: one item of the refine stage.  The
match-results existence check, the `pd.read_csv` emptiness check and the
config derivation happen before the `try` block; only the engine section is
guarded by `except Exception`. -/
def process_micrograph_refinement (eng : RefineEngine) (fs : FS)
    (micrograph_path match_results_csv template_yaml output_dir template_volume_path : String)
    (gpu_ids : List Int) (batch_size : Nat) : Except PyErr (Bool × FS) := do
  let micrograph_basename := pyBasename micrograph_path
  let micrograph_number := splitextRoot micrograph_basename
  if micrograph_number = "" then .ok (false, fs)
  else if fsExists fs match_results_csv = false then .ok (false, fs)
  else do
    let nrows ← readTableRows fs match_results_csv
    if nrows = 0 then .ok (false, fs)
    else do
      let custom_yaml_path :=
        pathJoin output_dir (splitextRoot micrograph_basename ++ "_refine_config.yaml")
      let (_, fs2) ← create_yaml_for_refinement fs template_yaml match_results_csv
        custom_yaml_path template_volume_path gpu_ids
      let refine_output_csv :=
        pathJoin output_dir (splitextRoot micrograph_basename ++ "_refined_results.csv")
      let attempt : Except PyErr (Bool × FS) := do
        let cfg ← readYamlDoc fs2 custom_yaml_path
        let rows ← eng.run cfg batch_size
        .ok (true, fsWrite fs2 refine_output_csv (.table rows))
      match attempt with
      | .ok r => .ok r
      | .error e => if e.isException then .ok (false, fs2) else .error e

/-- The item-selection pipeline of the refine script's `main` after
discovery: the optional `--filter-numbers` filter, then range selection.
Unlike the match stage, no resume filter consults the output directory. -/
def refineSelect (files : List String) (filterNumbers : Option (List Int))
    (r : RangeArgs) : List String :=
  let files2 :=
    match filterNumbers with
    | none => files
    | some nums =>
        files.filter (fun f =>
          match extract_numeric_micrograph_id (pyBasename f) with
          | some i => nums.contains i
          | none => false)
  selectRange files2 r

/-- The per-item loop of the refine script's `main`: the previous-stage
table path is `<stem><results_suffix>` in the match-results directory. -/
def refineLoop (eng : RefineEngine) (fs : FS) (files : List String)
    (match_results_dir results_suffix template_yaml output_dir template_volume : String)
    (gpu_ids : List Int) (batch_size : Nat) : Except PyErr (Nat × FS) :=
  match files with
  | [] => .ok (0, fs)
  | f :: rest => do
      let base_name := splitextRoot (pyBasename f)
      let match_results_csv := pathJoin match_results_dir (base_name ++ results_suffix)
      let (r, fs2) ← process_micrograph_refinement eng fs f match_results_csv template_yaml
        output_dir template_volume gpu_ids batch_size
      let (n, fs3) ← refineLoop eng fs2 rest match_results_dir results_suffix template_yaml
        output_dir template_volume gpu_ids batch_size
      .ok ((if r then 1 else 0) + n, fs3)

/-- `main` of the refine script from the discovery list onward: exit 1 on
empty discovery, otherwise filter/partition (no resume filtering), run the
loop, exit 0. -/
def refineMain (eng : RefineEngine) (fs : FS) (files : List String)
    (match_results_dir results_suffix template_yaml output_dir template_volume : String)
    (gpu_ids : List Int) (batch_size : Nat) (filterNumbers : Option (List Int))
    (r : RangeArgs) : Except PyErr (Int × FS) :=
  if files = [] then .ok (1, fs)
  else do
    let sel := refineSelect files filterNumbers r
    let (_, fs2) ← refineLoop eng fs sel match_results_dir results_suffix template_yaml
      output_dir template_volume gpu_ids batch_size
    .ok (0, fs2)

/-! ## `process_all_micrographs_constrained.py` (constrained-search stage)

This script adds the dual-sink structured log: every `log_info`/`log_error`
call prints to the console and synchronously appends a timestamped line to
the durable error-log file (timestamps are elided here; each durable write
is represented by its message).  The run state threads the filesystem, the
console transcript, the durable log transcript, and whether the log file is
still open. -/

structure CRunState where
  fs : FS
  console : List String
  log : List String
  logOpen : Bool

/-- A synchronous write-and-flush to the durable log sink.  (In the script
the guard is the truthiness of the global file handle; every reachable
durable write happens while the file is open, and the only writes attempted
after `close()` are themselves guarded by the file being open.) -/
def durableWrite (st : CRunState) (line : String) : CRunState :=
  if st.logOpen then { st with fs := st.fs, log := st.log ++ [line] } else st

/-- `print(...)`: console output only. -/
def consolePrint (st : CRunState) (message : String) : CRunState :=
  { st with console := st.console ++ [message] }

/-- `log_error`: optional console echo plus a durable timestamped line. -/
def log_error (st : CRunState) (message : String) (also_print : Bool := true) : CRunState :=
  let st2 := if also_print then consolePrint st message else st
  durableWrite st2 message

/-- `log_info`: optional console echo plus a durable `INFO:`-tagged line. -/
def log_info (st : CRunState) (message : String) (also_print : Bool := true) : CRunState :=
  let st2 := if also_print then consolePrint st message else st
  durableWrite st2 ("INFO: " ++ message)

/-- The constrained script's computations: state plus Python exceptions. -/
abbrev CSM := ExceptT PyErr (StateM CRunState)

/-- State update inside `CSM`. -/
def modifyC (f : CRunState → CRunState) : CSM Unit :=
  ExceptT.mk (fun st => (Except.ok (), f st))

/-- Read the current run state. -/
def getSC : CSM CRunState :=
  ExceptT.mk (fun st => (Except.ok st, st))

/-- Run a `CSM` computation on a state. -/
def runCSM {α : Type} (x : CSM α) (st : CRunState) : Except PyErr α × CRunState :=
  (ExceptT.run x).run st

/-- Hoist an exception-or-value into `CSM`. -/
def liftEx {α : Type} (x : Except PyErr α) : CSM α :=
  match x with
  | .ok a => pure a
  | .error e => throw e

/-- `log_info` with console echo, in `CSM`. -/
def logInfoC (msg : String) : CSM Unit := modifyC (fun st => log_info st msg)

/-- `log_info` with `also_print=False` (durable sink only), in `CSM`. -/
def logInfoQ (msg : String) : CSM Unit := modifyC (fun st => log_info st msg false)

/-- `log_error` with console echo, in `CSM`. -/
def logErrC (msg : String) : CSM Unit := modifyC (fun st => log_error st msg)

/-- `print`, in `CSM`. -/
def printC (msg : String) : CSM Unit := modifyC (fun st => consolePrint st msg)

/-- `os.path.exists`, in `CSM`. -/
def existsC (p : String) : CSM Bool := do
  let st ← getSC
  pure (fsExists st.fs p)

/-- `pd.read_csv` (row count), in `CSM`. -/
def readTableC (p : String) : CSM Nat := do
  let st ← getSC
  liftEx (readTableRows st.fs p)

/-- `yaml.safe_load(open(p))`, in `CSM`. -/
def readYamlC (p : String) : CSM Yaml := do
  let st ← getSC
  liftEx (readYamlDoc st.fs p)

/-- File write, in `CSM`. -/
def writeC (p : String) (d : FileData) : CSM Unit :=
  modifyC (fun st => { st with fs := fsWrite st.fs p d })

/-- The pure document transformation of `create_yaml_for_constrained_search`:
overlay the template volume path, the two previous-stage table paths, and
the GPU list. -/
def derive_constrained_config (config0 : Yaml)
    (large_results_csv small_results_csv template_volume_path : String)
    (gpu_ids : List Int) : Except PyErr Yaml := do
  let config ← config0.setItem "template_volume_path" (.str template_volume_path)
  let config ← config.setItem2 "particle_stack_reference" "df_path" (.str large_results_csv)
  let config ← config.setItem2 "particle_stack_constrained" "df_path" (.str small_results_csv)
  config.setItem2 "computational_config" "gpu_ids" (.list (gpu_ids.map Yaml.int))

/-- `create_yaml_for_constrained_search`: load the template, overlay,
persist at `output_yaml_path`. -/
def create_yaml_for_constrained_search (fs : FS)
    (template_yaml_path large_results_csv small_results_csv output_yaml_path
      template_volume_path : String) (gpu_ids : List Int) : Except PyErr (Yaml × FS) := do
  let config0 ← readYamlDoc fs template_yaml_path
  let config ← derive_constrained_config config0 large_results_csv small_results_csv
    template_volume_path gpu_ids
  .ok (config, fsWrite fs output_yaml_path (.ydoc config))

/-- Behaviour of the external constrained-search engine
(`ConstrainedSearchManager.from_yaml` and `run_constrained_search`),
opaque to the orchestrator. -/
structure ConstrainedEngine where
  validate : Yaml → Except PyErr Unit
  run : Yaml → ℚ → Nat → Except PyErr Nat

/-- `process_micrograph_constrained_search`: one item of the constrained
stage.  The preliminary checks and the config derivation precede the `try`
block; inside it, the pre-flight diagnostics re-raise wrapped errors, the
engine is invoked, and the typed handler chain turns every `Exception`
into a logged per-item failure — but a `KeyboardInterrupt` matches no
handler and propagates.  The runtime is modelled without `torch` (the GPU
probe's `ImportError` branch), and `output_writable` models the
`os.access(output_dir, W_OK)` probe. -/
def process_micrograph_constrained_search (eng : ConstrainedEngine) (output_writable : Bool)
    (micrograph_path large_results_csv small_results_csv template_yaml output_dir
      template_volume_path : String) (gpu_ids : List Int) (batch_size : Nat)
    (false_positives : ℚ) : CSM Bool := do
  let micrograph_basename := pyBasename micrograph_path
  match extract_micrograph_number micrograph_basename with
  | none => do
      printC ("Could not extract micrograph number from " ++ micrograph_basename)
      pure false
  | some _ => do
    let existsLarge ← existsC large_results_csv
    if existsLarge = false then do
      printC ("Large particle results not found: " ++ large_results_csv)
      pure false
    else do
    let existsSmall ← existsC small_results_csv
    if existsSmall = false then do
      printC ("Small particle results not found: " ++ small_results_csv)
      pure false
    else do
    let nLarge ← readTableC large_results_csv
    if nLarge = 0 then do
      printC ("No large particle matches in " ++ large_results_csv)
      pure false
    else do
    let custom_yaml_path :=
      pathJoin output_dir (splitextRoot micrograph_basename ++ "_constrained_config.yaml")
    let st ← getSC
    let created ← liftEx (create_yaml_for_constrained_search st.fs template_yaml
      large_results_csv small_results_csv custom_yaml_path template_volume_path gpu_ids)
    modifyC (fun s => { s with fs := created.2 })
    let attempt : CSM Bool := do
      logInfoC ("Running constrained search for " ++ micrograph_basename ++
        " with GPUs " ++ toString gpu_ids)
      logInfoQ "DEBUG: Checking file existence and validity..."
      let b1 ← existsC large_results_csv
      if b1 = false then
        throw (PyErr.fileNotFound ("Large results CSV not found: " ++ large_results_csv))
      else pure ()
      let b2 ← existsC small_results_csv
      if b2 = false then
        throw (PyErr.fileNotFound ("Small results CSV not found: " ++ small_results_csv))
      else pure ()
      let b3 ← existsC template_volume_path
      if b3 = false then
        throw (PyErr.fileNotFound ("Template volume not found: " ++ template_volume_path))
      else pure ()
      let b4 ← existsC custom_yaml_path
      if b4 = false then
        throw (PyErr.fileNotFound ("Custom YAML config not found: " ++ custom_yaml_path))
      else pure ()
      let checkLarge : CSM Unit := do
        let n ← readTableC large_results_csv
        logInfoQ ("DEBUG: Large results CSV has " ++ toString n ++ " rows")
        if n = 0 then
          throw (PyErr.valueError ("Large results CSV is empty: " ++ large_results_csv))
        else pure ()
      tryCatch checkLarge (fun e =>
        if e.isException then
          throw (PyErr.valueError ("Error reading large results CSV " ++ large_results_csv))
        else throw e)
      let checkSmall : CSM Unit := do
        let n ← readTableC small_results_csv
        logInfoQ ("DEBUG: Small results CSV has " ++ toString n ++ " rows")
        if n = 0 then
          throw (PyErr.valueError ("Small results CSV is empty: " ++ small_results_csv))
        else pure ()
      tryCatch checkSmall (fun e =>
        if e.isException then
          throw (PyErr.valueError ("Error reading small results CSV " ++ small_results_csv))
        else throw e)
      let checkYaml : CSM Unit := do
        let y ← readYamlC custom_yaml_path
        logInfoQ "DEBUG: YAML config loaded successfully"
        let ks ← liftEx y.dictKeys
        logInfoQ ("DEBUG: YAML keys: " ++ toString ks)
      tryCatch checkYaml (fun e =>
        if e.isException then
          throw (PyErr.valueError ("Error parsing YAML config " ++ custom_yaml_path))
        else throw e)
      logInfoQ "DEBUG: torch not available for GPU check"
      logInfoQ "DEBUG: Creating ConstrainedSearchManager from YAML..."
      let cfg ← readYamlC custom_yaml_path
      liftEx (eng.validate cfg)
      logInfoQ "DEBUG: ConstrainedSearchManager created successfully"
      let constrained_output_csv :=
        pathJoin output_dir (splitextRoot micrograph_basename ++ "_constrained_results.csv")
      logInfoQ ("DEBUG: Output CSV path: " ++ constrained_output_csv)
      if output_writable = false then
        throw (PyErr.permissionError ("Output directory not writable: " ++ output_dir))
      else pure ()
      logInfoQ ("DEBUG: Starting constrained search with batch size " ++ toString batch_size)
      let rows ← liftEx (eng.run cfg false_positives batch_size)
      writeC constrained_output_csv (.table rows)
      logInfoC "Constrained search wall time: elided"
      let outExists ← existsC constrained_output_csv
      if outExists then do
        let checkOut : CSM Unit := do
          let n ← readTableC constrained_output_csv
          logInfoQ ("DEBUG: Output CSV created with " ++ toString n ++ " rows")
        tryCatch checkOut (fun e =>
          if e.isException then logInfoC "WARNING: Output CSV exists but cannot be read"
          else throw e)
      else logInfoC ("WARNING: Output CSV was not created: " ++ constrained_output_csv)
      logInfoQ ("Successfully completed constrained search for " ++ micrograph_basename)
      pure true
    tryCatch attempt (fun e =>
      match e with
      | .fileNotFound m => do
          logErrC ("FILE NOT FOUND ERROR for " ++ micrograph_basename)
          logErrC ("  " ++ m)
          logErrC "  Current working directory: elided"
          pure false
      | .valueError m => do
          logErrC ("VALUE ERROR for " ++ micrograph_basename)
          logErrC ("  " ++ m)
          pure false
      | .permissionError m => do
          logErrC ("PERMISSION ERROR for " ++ micrograph_basename)
          logErrC ("  " ++ m)
          pure false
      | .importError m => do
          logErrC ("IMPORT ERROR for " ++ micrograph_basename)
          logErrC ("  " ++ m)
          logErrC "  This might indicate missing dependencies"
          pure false
      | .keyboardInterrupt => throw PyErr.keyboardInterrupt
      | _ => do
          logErrC ("UNEXPECTED ERROR for " ++ micrograph_basename)
          logErrC "  Error type, message and traceback: elided"
          logErrC "  Debug information:"
          logErrC ("    - Micrograph path: " ++ micrograph_path)
          logErrC ("    - Large results CSV: " ++ large_results_csv)
          logErrC ("    - Small results CSV: " ++ small_results_csv)
          logErrC ("    - Template YAML: " ++ template_yaml)
          logErrC ("    - Custom YAML: " ++ custom_yaml_path)
          logErrC ("    - Template volume: " ++ template_volume_path)
          logErrC ("    - Output directory: " ++ output_dir)
          logErrC ("    - GPU IDs: " ++ toString gpu_ids)
          logErrC ("    - Batch size: " ++ toString batch_size)
          logErrC "    - False positives: elided"
          pure false)

/-- Outcome of the constrained per-item loop: normal completion, an
operator interrupt caught at the run level, or some other exception caught
by the run-level `except Exception`; each carries the success count at the
moment the loop stopped. -/
inductive LoopOutcome where
  | done (successful : Nat)
  | interrupted (successful : Nat)
  | failed (successful : Nat)

/-- The success count a `LoopOutcome` carries. -/
def LoopOutcome.count : LoopOutcome → Nat
  | .done n => n
  | .interrupted n => n
  | .failed n => n

/-- The per-item loop of the constrained script's `main` (the body of the
run-level `try`), with the run-level handlers folded into the outcome. -/
def constrainedLoop (eng : ConstrainedEngine) (output_writable : Bool)
    (large_results_dir small_results_dir large_suffix small_suffix template_yaml
      output_dir template_volume : String) (gpu_ids : List Int) (batch_size : Nat)
    (false_positives : ℚ) (total : Nat) :
    List String → Nat → Nat → CRunState → LoopOutcome × CRunState
  | [], _, successful, st => (.done successful, st)
  | f :: rest, i, successful, st =>
      let micrograph_basename := pyBasename f
      let base_name := splitextRoot micrograph_basename
      let large_results_csv := pathJoin large_results_dir (base_name ++ large_suffix)
      let small_results_csv := pathJoin small_results_dir (base_name ++ small_suffix)
      let header := "Processing " ++ toString (i + 1) ++ "/" ++ toString total ++ ": " ++
        micrograph_basename
      let st := consolePrint st header
      let st := log_info st header
      let st := log_info st ("  Large results CSV: " ++ large_results_csv)
      let st := log_info st ("  Small results CSV: " ++ small_results_csv)
      match runCSM (process_micrograph_constrained_search eng output_writable f
        large_results_csv small_results_csv template_yaml output_dir template_volume
        gpu_ids batch_size false_positives) st with
      | (.ok r, st2) =>
          let st3 := if r then log_info st2 ("SUCCESS: " ++ micrograph_basename ++ " processed successfully")
            else log_info st2 ("FAILED: " ++ micrograph_basename ++ " failed to process")
          let st4 := log_info st3 "----------------------------------------"
          constrainedLoop eng output_writable large_results_dir small_results_dir
            large_suffix small_suffix template_yaml output_dir template_volume gpu_ids
            batch_size false_positives total rest (i + 1)
            (if r then successful + 1 else successful) st4
      | (.error .keyboardInterrupt, st2) => (.interrupted successful, st2)
      | (.error _, st2) => (.failed successful, st2)

/-- Lines 355–408 of the constrained script's `main`: the guarded per-item
loop, the run-level `KeyboardInterrupt` / `Exception` handlers, the
`finally` block that closes the durable log, the final-summary block that
is guarded by the log file still being open, and the console summary.
Returns the process exit status and the final run state. -/
def constrainedMainSection (eng : ConstrainedEngine) (output_writable : Bool)
    (st0 : CRunState) (files : List String)
    (large_results_dir small_results_dir large_suffix small_suffix template_yaml
      output_dir template_volume : String) (gpu_ids : List Int) (batch_size : Nat)
    (false_positives : ℚ) : Int × CRunState :=
  let run := constrainedLoop eng output_writable large_results_dir small_results_dir
    large_suffix small_suffix template_yaml output_dir template_volume gpu_ids
    batch_size false_positives files.length files 0 0 st0
  let outcome := run.1
  let st1 := run.2
  let st2 :=
    match outcome with
    | .interrupted _ =>
        let s := log_error st1 "Processing interrupted by user (Ctrl+C)"
        consolePrint s "Processing interrupted by user (Ctrl+C)"
    | .failed _ =>
        let s := log_error st1 "Unexpected error during processing: elided"
        consolePrint s "Unexpected error during processing: elided"
    | .done _ => st1
  let st3 := { st2 with logOpen := false }
  let st4 :=
    if st3.logOpen then
      let s := log_info st3 "Processing complete!"
      let s := log_info s ("Successfully completed constrained search for " ++
        toString outcome.count ++ "/" ++ toString files.length ++ " micrographs")
      let s := log_info s ("Failed: " ++ toString (files.length - outcome.count) ++ "/" ++
        toString files.length ++ " micrographs")
      log_info s "Finished at: elided"
    else st3
  let st5 := consolePrint st4 ("Successfully completed constrained search for " ++
    toString outcome.count ++ "/" ++ toString files.length ++ " micrographs")
  let st6 := consolePrint st5 "Detailed error log saved to: elided"
  (0, st6)

/-! ## `export_relion.py`: the per-particle crop-and-pad of
`create_particle_stacks` -/

/-- One particle's crop from `create_particle_stacks`: a `box_size` square
region about the integer center, clamped to the image bounds; `none` models
the skipped-with-warning row for a degenerate clamped region; otherwise the
`box_size` × `box_size` zero-initialised buffer whose top-left corner
receives the clamped pixels.  Pixel values are the image function's; the
image has `h` rows and `w` columns. -/
def cropParticle (micrograph : Nat → Nat → Int) (h w : Nat) (box_size : Nat)
    (center_x center_y : Int) : Option (List (List Int)) :=
  let half_box : Int := (box_size : Int) / 2
  let x_start := max 0 (center_x - half_box)
  let y_start := max 0 (center_y - half_box)
  let x_end := min (w : Int) (center_x + half_box)
  let y_end := min (h : Int) (center_y + half_box)
  if x_end ≤ x_start ∨ y_end ≤ y_start then none
  else
    let copy_height := min (y_end - y_start).toNat box_size
    let copy_width := min (x_end - x_start).toNat box_size
    some ((List.range box_size).map (fun i =>
      (List.range box_size).map (fun j =>
        if i < copy_height ∧ j < copy_width then
          micrograph (y_start.toNat + i) (x_start.toNat + j)
        else 0)))

/-- The spec's reading of corner padding (from the claim's words, for
comparison with `cropParticle`): in the output buffer, every cell lying on
the clamped — out-of-bounds — sides is zero padding; `padTop` and `padLeft`
are the number of rows and columns of the requested box that fell outside
the image on the low sides. -/
def zeroPaddingOnOutOfBoundsSides (m : List (List Int)) (box padTop padLeft : Nat) : Prop :=
  ∀ i, i < box → ∀ j, j < box → (i < padTop ∨ j < padLeft) →
    (m.getD i []).getD j 0 = 0

/-! ## Serialized bytes.

The spec treats document serialization as an external "save a nested
key-value document" capability; what matters for the development is that
the bytes written for a document are a deterministic function of the
document, which `yamlDump` realises. -/

mutual

def yamlDump : Yaml → String
  | .str s => s
  | .int n => toString n
  | .rat q => toString q
  | .bool b => toString b
  | .list xs => "[" ++ yamlDumpList xs ++ "]"
  | .dict es => "(" ++ yamlDumpEntries es ++ ")"

def yamlDumpList : List Yaml → String
  | [] => ""
  | [x] => yamlDump x
  | x :: y :: xs => yamlDump x ++ ", " ++ yamlDumpList (y :: xs)

def yamlDumpEntries : List (String × Yaml) → String
  | [] => ""
  | (k, v) :: es => k ++ ": " ++ yamlDump v ++ "; " ++ yamlDumpEntries es

end

/-- On-disk bytes of a file, given its (externally serialized) data. -/
def fileBytes : FileData → String
  | .text lines => String.intercalate "\n" lines
  | .ydoc y => yamlDump y
  | .table rows => "table with " ++ toString rows ++ " rows"
  | .binary => "binary"

/-! ## Concrete fixtures used by counterexamples and witnesses -/

/-- A match-stage engine that always succeeds with an empty table. -/
def engOkMatch : MatchEngine := ⟨fun _ _ => .ok 0⟩

/-- A refine-stage engine that always succeeds. -/
def engOkRefine : RefineEngine := ⟨fun _ _ => .ok 5⟩

/-- A constrained-search engine whose run is interrupted by the operator. -/
def engInterrupt : ConstrainedEngine := ⟨fun _ => .ok (), fun _ _ _ => .error .keyboardInterrupt⟩

/-- A representative match-stage template document: the overlay groups, a
two-key output-artifact group with its overwrite flag, and extra fields
that the derivation must carry through unchanged. -/
def matchTemplateDoc : Yaml := .dict [
  ("micrograph_path", .str "placeholder.mrc"),
  ("optics_group", .dict [("defocus_u", .rat 0), ("defocus_v", .rat 0),
     ("astigmatism_angle", .rat 0), ("pixel_size", .rat 1)]),
  ("computational_config", .dict [("gpu_ids", .list []), ("num_cpus", .int 4)]),
  ("match_template_result", .dict [("allow_file_overwrite", .bool true),
     ("mip_path", .str "orig_dir/mip.mrc"),
     ("scaled_mip_path", .str "orig_dir/scaled_mip.mrc")]),
  ("extra_setting", .str "kept")]

/-- A filesystem whose one CTF diagnostic file has five fields on its data
line but a non-numeric second field, so `float(parts[1])` raises. -/
def badCtfFS : FS := [
  ("mics/xenon_1_2_a.mrc", .binary),
  ("mics/xenon_3_4_b.mrc", .binary),
  ("ctfs/xenon_1_2_0.0_diagnostic.txt", .text ["# header", "1 bad 2.0 3.0 4.0"]),
  ("tmpl.yaml", .ydoc matchTemplateDoc)]

/-- A filesystem for a fully successful single-item match run, with a
well-formed CTF diagnostic file. -/
def goodCtfFS : FS := [
  ("mics/xenon_1_2_a.mrc", .binary),
  ("ctfs/xenon_1_2_0.0_diagnostic.txt", .text ["# header", "1 10000.0 9000.0 45.0 0.1"]),
  ("tmpl.yaml", .ydoc matchTemplateDoc)]

/-- A filesystem whose CTF diagnostic file's only data line has four
fields, so positions 1–3 exist but the line never qualifies. -/
def shortCtfFS : FS := [
  ("mics/xenon_1_2_a.mrc", .binary),
  ("ctfs/xenon_1_2_0.0_diagnostic.txt", .text ["# header", "1.0 2.0 3.0 4.0"]),
  ("tmpl.yaml", .ydoc matchTemplateDoc)]

/-- A representative refine-stage template document. -/
def refineTemplateDoc : Yaml := .dict [
  ("template_volume_path", .str "placeholder.mrc"),
  ("particle_stack", .dict [("df_path", .str "placeholder.csv")]),
  ("computational_config", .dict [("gpu_ids", .list [])])]

/-- A filesystem in which micrograph `m1`'s refine-stage terminal artifact
`refout/m1_refined_results.csv` already exists. -/
def refineDoneFS : FS := [
  ("mics/m1.mrc", .binary),
  ("matchres/m1_results.csv", .table 2),
  ("refout/m1_refined_results.csv", .table 7),
  ("tmpl_refine.yaml", .ydoc refineTemplateDoc)]

/-- A representative constrained-search template document. -/
def constrainedTemplateDoc : Yaml := .dict [
  ("template_volume_path", .str "placeholder.mrc"),
  ("particle_stack_reference", .dict [("df_path", .str "placeholder.csv")]),
  ("particle_stack_constrained", .dict [("df_path", .str "placeholder.csv")]),
  ("computational_config", .dict [("gpu_ids", .list [])])]

/-- A filesystem for a constrained-search run of one item with all inputs
in place, so the run reaches the engine invocation. -/
def constrainedFS : FS := [
  ("mics/xenon_1_2_a.mrc", .binary),
  ("lres/xenon_1_2_a_refined_results.csv", .table 2),
  ("sres/xenon_1_2_a_results.csv", .table 2),
  ("vol.mrc", .binary),
  ("tmpl_constrained.yaml", .ydoc constrainedTemplateDoc)]

/-- The interrupted constrained run on `constrainedFS`, started with an
open, empty durable log. -/
def interruptedRun : Int × CRunState :=
  constrainedMainSection engInterrupt true ⟨constrainedFS, [], [], true⟩
    ["mics/xenon_1_2_a.mrc"] "lres" "sres" "_refined_results.csv" "_results.csv"
    "tmpl_constrained.yaml" "out" "vol.mrc" [0] 80 (5 / 1000)

/-- Ten item names in sorted order, matching the spec's partitioning
examples with n = 10. -/
def files10 : List String :=
  ["f0", "f1", "f2", "f3", "f4", "f5", "f6", "f7", "f8", "f9"]

/-- A match-stage engine whose run always raises an (interruptless)
engine error. -/
def engFailMatch : MatchEngine := ⟨fun _ _ => .error (.engineError "boom")⟩

/-- A filesystem in which the sole micrograph's match-stage terminal
artifact `out/xenon_1_2_a_results.csv` already exists. -/
def matchDoneFS : FS := [
  ("mics/xenon_1_2_a.mrc", .binary),
  ("out/xenon_1_2_a_results.csv", .table 3)]

/-- The parsed calibration triple of `goodCtfFS`'s diagnostic file. -/
def goodCtf : ℚ × ℚ × ℚ :=
  match get_ctf_parameters ["# header", "1 10000.0 9000.0 45.0 0.1"] with
  | .ok (some t) => t
  | _ => (0, 0, 0)

/-- The derived configuration and resulting filesystem of the successful
single-item derivation on `goodCtfFS` (used by witnesses). -/
def goodDerived : Yaml × FS :=
  match create_yaml_for_micrograph goodCtfFS "tmpl.yaml" "mics/xenon_1_2_a.mrc"
    goodCtf.1 goodCtf.2.1 goodCtf.2.2 "out/xenon_1_2_a_config.yaml" [0] with
  | .ok r => r
  | .error _ => (.dict [], [])

/-- The concrete crop buffer at the high corner (3,3) of a 4 × 4 image
with box size 4 (used by the C8 witness). -/
def cropExample : List (List Int) :=
  (cropParticle (fun i j => (10 * i + j : Int)) 4 4 4 3 3).getD []

/-! # Theorems -/

/-! ## Association-list, filesystem and list lemmas -/

theorem lookupEntry_setEntry_self (es : List (String × Yaml)) (k : String) (v : Yaml) :
    lookupEntry (setEntry es k v) k = some v := by
  induction es with
  | nil => simp [setEntry, lookupEntry]
  | cons e rest ih =>
      obtain ⟨a, b⟩ := e
      by_cases h : a = k
      · simp [setEntry, lookupEntry, h]
      · simp [setEntry, lookupEntry, h, ih]

theorem lookupEntry_setEntry_ne (es : List (String × Yaml)) (k k2 : String) (v : Yaml)
    (h : k2 ≠ k) : lookupEntry (setEntry es k v) k2 = lookupEntry es k2 := by
  induction es with
  | nil => simp [setEntry, lookupEntry, Ne.symm h]
  | cons e rest ih =>
      obtain ⟨a, b⟩ := e
      by_cases h2 : a = k
      · subst h2
        simp [setEntry, lookupEntry, Ne.symm h]
      · by_cases h3 : a = k2 <;> simp [setEntry, lookupEntry, h2, h3, ih, h]

theorem setEntry_setEntry (es : List (String × Yaml)) (k : String) (v w : Yaml) :
    setEntry (setEntry es k v) k w = setEntry es k w := by
  induction es with
  | nil => simp [setEntry]
  | cons e rest ih =>
      obtain ⟨a, b⟩ := e
      by_cases h : a = k <;> simp [setEntry, h, ih]

theorem setEntry_eq_self (es : List (String × Yaml)) (k : String) (v : Yaml)
    (h : lookupEntry es k = some v) : setEntry es k v = es := by
  induction es with
  | nil => simp [lookupEntry] at h
  | cons e rest ih =>
      obtain ⟨a, b⟩ := e
      by_cases h2 : a = k
      · subst h2
        simp [lookupEntry] at h
        simp [setEntry, h]
      · simp [lookupEntry, h2] at h
        simp [setEntry, h2, ih h]

theorem fsGet_fsWrite_self (fs : FS) (p : String) (d : FileData) :
    fsGet (fsWrite fs p d) p = some d := by
  induction fs with
  | nil => simp [fsWrite, fsGet]
  | cons e rest ih =>
      obtain ⟨q, c⟩ := e
      by_cases h : q = p
      · simp [fsWrite, fsGet, h]
      · simp [fsWrite, fsGet, h, ih]

theorem fsGet_fsWrite_ne (fs : FS) (p q : String) (d : FileData) (h : q ≠ p) :
    fsGet (fsWrite fs p d) q = fsGet fs q := by
  induction fs with
  | nil => simp [fsWrite, fsGet, Ne.symm h]
  | cons e rest ih =>
      obtain ⟨a, c⟩ := e
      by_cases h2 : a = p
      · subst h2
        simp [fsWrite, fsGet, Ne.symm h]
      · by_cases h3 : a = q <;> simp [fsWrite, fsGet, h2, h3, ih, h]

theorem fsWrite_fsWrite (fs : FS) (p : String) (v w : FileData) :
    fsWrite (fsWrite fs p v) p w = fsWrite fs p w := by
  induction fs with
  | nil => simp [fsWrite]
  | cons e rest ih =>
      obtain ⟨q, c⟩ := e
      by_cases h : q = p <;> simp [fsWrite, h, ih]

/-! ## Claim C2: job partitioning -/

/-- Claim C2: with both array-job parameters given (1-based `j`, size
`k ≥ 0`), the orchestrator selects exactly the items with indices in
`[(j-1)*k, min(j*k, n))`; array-job mode takes precedence over the explicit
start/end mode; a request past the end of the list yields the empty range;
with neither mode given the full list is selected; and in `main` an empty
range just runs an empty loop and exits with status 0 (the legitimate
"nothing to do" state), leaving the filesystem untouched. -/
theorem claim2 (files : List String) (j k : Int) (s e : Option Int)
    (hj : 1 ≤ j) (hk : 0 ≤ k) :
    selectRange files ⟨some j, some k, s, e⟩ =
      (files.take (min (j * k).toNat files.length)).drop ((j - 1) * k).toNat ∧
    selectRange files ⟨some j, some k, s, e⟩ =
      selectRange files ⟨some j, some k, none, none⟩ ∧
    ((files.length : Int) ≤ (j - 1) * k →
      selectRange files ⟨some j, some k, s, e⟩ = []) ∧
    selectRange files ⟨none, none, none, none⟩ = files ∧
    (∀ (eng : MatchEngine) (fs : FS) (tpath cdir odir : String) (gpus : List Int) (bs : Nat),
      files ≠ [] →
      files.filter (fun f => !is_already_processed fs f odir) ≠ [] →
      (((files.filter (fun f => !is_already_processed fs f odir)).length : Int) ≤ (j - 1) * k) →
      matchMain eng fs files tpath cdir odir gpus bs ⟨some j, some k, s, e⟩ = .ok (0, fs)) := by
  have key : ∀ (l : List String), selectRange l ⟨some j, some k, s, e⟩ =
      (l.take (min (j * k).toNat l.length)).drop ((j - 1) * k).toNat := by
    intro l
    show pySlice l ((j - 1) * k) (min ((j - 1) * k + k) (l.length : Int)) = _
    have hjk : (j - 1) * k + k = j * k := by ring
    have hnn : (0 : Int) ≤ (j - 1) * k := mul_nonneg (by omega) hk
    unfold pySlice pySliceIdx
    rw [if_neg (by omega), if_neg (by omega), hjk]
    have e2 : (min (j * k) ((l.length : Nat) : Int)).toNat = min (j * k).toNat l.length := by
      omega
    rw [e2, min_assoc, min_self]
    have hlen : (l.take (min (j * k).toNat l.length)).length ≤ l.length := by
      rw [List.length_take]
      omega
    rcases le_or_lt ((j - 1) * k).toNat l.length with hle | hgt
    · rw [min_eq_left hle]
    · rw [min_eq_right (le_of_lt hgt)]
      rw [List.drop_eq_nil_of_le hlen, List.drop_eq_nil_of_le (le_trans hlen (by omega))]
  have emptyKey : ∀ (l : List String), ((l.length : Int) ≤ (j - 1) * k) →
      selectRange l ⟨some j, some k, s, e⟩ = [] := by
    intro l hl
    rw [key l]
    apply List.drop_eq_nil_of_le
    calc (l.take (min (j * k).toNat l.length)).length
        ≤ l.length := by rw [List.length_take]; omega
      _ ≤ ((j - 1) * k).toNat := by omega
  refine ⟨key files, rfl, emptyKey files, rfl, ?_⟩
  · intro eng fs tpath cdir odir gpus bs hne hfne hlen
    unfold matchMain
    rw [if_neg hne, if_neg hfne]
    rw [emptyKey _ hlen]
    rfl

/-! ## Claim C3: resume filtering -/

/-- Claim C3 counterexample: the claim fails for the refine stage, which
has no resume filter.  With micrograph `m1`'s terminal refine artifact
`refout/m1_refined_results.csv` already present in the output directory,
the refine orchestrator still selects the item (the selection ignores the
output directory) and processes it: the loop reports one success, where the
claim requires zero items left to process. -/
theorem claim3_counterexample :
    fsExists refineDoneFS "refout/m1_refined_results.csv" = true ∧
    refineSelect ["mics/m1.mrc"] none ⟨none, none, none, none⟩ = ["mics/m1.mrc"] ∧
    (refineLoop engOkRefine refineDoneFS ["mics/m1.mrc"] "matchres" "_results.csv"
      "tmpl_refine.yaml" "refout" "vol.mrc" [0] 64).toOption.map Prod.fst = some 1 :=
  ⟨rfl, rfl, rfl⟩

/-- Claim C3 (amended): only the match stage applies a resume filter.  That
filter retains exactly the items whose terminal artifact
`<stem>_results.csv` is absent from the output directory at call time; when
every item's artifact exists the filtered list is empty and `main` exits
with status 0 without processing anything.  (The refine and
constrained-search stages select items without consulting the output
directory, per the counterexample.) -/
theorem claim3_amended (fs : FS) (files : List String) (odir : String) :
    (∀ f, f ∈ files.filter (fun g => !is_already_processed fs g odir) ↔
      f ∈ files ∧
        fsExists fs (pathJoin odir (splitextRoot (pyBasename f) ++ "_results.csv")) = false) ∧
    ((∀ f ∈ files, is_already_processed fs f odir = true) →
      files.filter (fun g => !is_already_processed fs g odir) = []) ∧
    (files ≠ [] → (∀ f ∈ files, is_already_processed fs f odir = true) →
      ∀ (eng : MatchEngine) (tpath cdir : String) (gpus : List Int) (bs : Nat) (r : RangeArgs),
        matchMain eng fs files tpath cdir odir gpus bs r = .ok (0, fs)) := by
  have hempty : (∀ f ∈ files, is_already_processed fs f odir = true) →
      files.filter (fun g => !is_already_processed fs g odir) = [] := by
    intro h
    rw [List.filter_eq_nil_iff]
    intro a ha
    simp [h a ha]
  refine ⟨?_, hempty, ?_⟩
  · intro f
    rw [List.mem_filter]
    unfold is_already_processed
    simp
  · intro hne hall eng tpath cdir gpus bs r
    unfold matchMain
    rw [if_neg hne, if_pos (hempty hall)]

/-- Witness for the amended C3: on a filesystem where the only item's match
artifact exists, `main` exits 0 immediately, leaving the filesystem as it
was. -/
theorem claim3_witness :
    matchMain engOkMatch matchDoneFS ["mics/xenon_1_2_a.mrc"] "tmpl.yaml" "ctfs" "out" [0] 8
      ⟨none, none, none, none⟩ = .ok (0, matchDoneFS) :=
  (claim3_amended matchDoneFS ["mics/xenon_1_2_a.mrc"] "out").2.2 (by decide) (by decide)
    engOkMatch "tmpl.yaml" "ctfs" [0] 8 ⟨none, none, none, none⟩

/-! ## Claim C1: per-item error containment -/

/-- Success shape of `create_yaml_for_micrograph`: on success the returned
filesystem is the input plus the derived document written at
`output_path`. -/
theorem create_yaml_ok_shape (fs : FS) (tpath mpath : String) (d1 d2 ang : ℚ)
    (opath : String) (gpus : List Int) (cfg : Yaml) (fsw : FS)
    (h : create_yaml_for_micrograph fs tpath mpath d1 d2 ang opath gpus = .ok (cfg, fsw)) :
    fsw = fsWrite fs opath (.ydoc cfg) := by
  unfold create_yaml_for_micrograph at h
  cases hr : readYamlDoc fs tpath with
  | error e => rw [hr] at h; simp [Bind.bind, Except.bind] at h
  | ok c0 =>
      rw [hr] at h
      simp only [Bind.bind, Except.bind] at h
      cases hd : derive_match_config c0 mpath d1 d2 ang opath gpus with
      | error e => rw [hd] at h; simp at h
      | ok c =>
          rw [hd] at h
          simp only [Except.ok.injEq, Prod.mk.injEq] at h
          rw [← h.1, ← h.2]

/-- Claim C1 (amended): within the match stage's per-item processing, only
the engine-invocation section is guarded.  For an item whose
pre-invocation steps succeed (identifier extracted, CTF file present and
parsed, configuration derived), any engine exception is caught at the item
boundary: the item is marked failed, the run state keeps the derived
config, and the loop continues with the remaining items unchanged; an
operator interrupt, however, is not caught by the `except Exception`
handler and propagates.  (Exceptions from the pre-invocation steps
themselves propagate and abort the run — see the counterexample.) -/
theorem claim1_amended (eng : MatchEngine) (fs : FS)
    (mpath tpath cdir odir : String) (gpus : List Int) (bs : Nat)
    (num : String) (lines : List String) (ctf : ℚ × ℚ × ℚ) (cfg : Yaml) (fsw : FS)
    (hnum : extract_micrograph_number (pyBasename mpath) = some num)
    (hex : fsExists fs (pathJoin cdir ("xenon_" ++ num ++ "_0.0_diagnostic.txt")) = true)
    (hlines : readTextLines fs (pathJoin cdir ("xenon_" ++ num ++ "_0.0_diagnostic.txt")) =
      .ok lines)
    (hctf : get_ctf_parameters lines = .ok (some ctf))
    (hyaml : create_yaml_for_micrograph fs tpath mpath ctf.1 ctf.2.1 ctf.2.2
      (pathJoin odir (splitextRoot (pyBasename mpath) ++ "_config.yaml")) gpus =
      .ok (cfg, fsw)) :
    (∀ e : PyErr, e.isException = true → eng.run cfg bs = .error e →
      process_micrograph eng fs mpath tpath cdir odir gpus bs = .ok (false, fsw)) ∧
    (eng.run cfg bs = .error .keyboardInterrupt →
      process_micrograph eng fs mpath tpath cdir odir gpus bs = .error .keyboardInterrupt) ∧
    (∀ e : PyErr, e.isException = true → eng.run cfg bs = .error e →
      ∀ rest : List String,
        processLoop eng fs (mpath :: rest) tpath cdir odir gpus bs =
          processLoop eng fsw rest tpath cdir odir gpus bs) := by
  obtain ⟨d1, d2, ang⟩ := ctf
  have hw := create_yaml_ok_shape _ _ _ _ _ _ _ _ _ _ hyaml
  have hcore : process_micrograph eng fs mpath tpath cdir odir gpus bs =
      (match eng.run cfg bs with
       | .ok rows => .ok (true, fsWrite fsw
           (pathJoin odir (splitextRoot (pyBasename mpath) ++ "_results.csv")) (.table rows))
       | .error e => if e.isException then .ok (false, fsw) else .error e) := by
    have hread : readYamlDoc fsw
        (pathJoin odir (splitextRoot (pyBasename mpath) ++ "_config.yaml")) = .ok cfg := by
      rw [hw]
      unfold readYamlDoc
      rw [fsGet_fsWrite_self]
    simp only at hyaml
    simp only [process_micrograph, hnum, hex, Bool.true_eq_false, if_false, hlines,
      Bind.bind, Except.bind, hctf, hyaml, hread]
    cases hrun : eng.run cfg bs <;> simp [hrun]
  refine ⟨?_, ?_, ?_⟩
  · intro e he hrun
    rw [hcore, hrun]
    simp [he]
  · intro hrun
    rw [hcore, hrun]
    rfl
  · intro e he hrun rest
    have hp : process_micrograph eng fs mpath tpath cdir odir gpus bs = .ok (false, fsw) := by
      rw [hcore, hrun]
      simp [he]
    simp only [processLoop, hp, Bind.bind, Except.bind]
    cases hrest : processLoop eng fsw rest tpath cdir odir gpus bs with
    | error e2 => simp [hrest]
    | ok p => simp [hrest]

/-- Claim C1 counterexample: a CTF diagnostic file whose qualifying line
has a non-numeric second field makes `float(parts[1])` raise `ValueError`
outside the guarded section; the exception escapes `process_micrograph`
and the unguarded `main` loop, aborting the whole run before the second
item is even attempted — the engine is never invoked. -/
theorem claim1_counterexample :
    matchMain engOkMatch badCtfFS ["mics/xenon_1_2_a.mrc", "mics/xenon_3_4_b.mrc"]
      "tmpl.yaml" "ctfs" "out" [0] 8 ⟨none, none, none, none⟩ =
      .error (.valueError "could not convert string to float") := rfl

/-- Witness for the amended C1 at a concrete run: with every pre-invocation
step succeeding and an engine that raises, the item fails without any
exception escaping, and the failed run state is the input filesystem plus
the derived per-item configuration. -/
theorem claim1_witness :
    process_micrograph engFailMatch goodCtfFS "mics/xenon_1_2_a.mrc" "tmpl.yaml" "ctfs" "out"
      [0] 8 = .ok (false, goodDerived.2) :=
  (claim1_amended engFailMatch goodCtfFS "mics/xenon_1_2_a.mrc" "tmpl.yaml" "ctfs" "out"
    [0] 8 "1_2" ["# header", "1 10000.0 9000.0 45.0 0.1"] goodCtf goodDerived.1 goodDerived.2
    rfl rfl rfl rfl rfl).1 (.engineError "boom") rfl rfl

/-! ## Claim C7: calibration parsing -/

/-- Claim C7 counterexample: on a diagnostic file whose only data line has
four whitespace-separated fields, the fields at 0-indexed positions 1, 2
and 3 all exist and parse as floats — so per the claim the triple should be
returned — yet the code skips any line with fewer than five fields and
returns the rejection value `(None, None, None)`. -/
theorem claim7_counterexample :
    (pySplitWs "1.0 2.0 3.0 4.0").length = 4 ∧
    (pyFloat? ((pySplitWs "1.0 2.0 3.0 4.0").getD 1 "")).isSome = true ∧
    (pyFloat? ((pySplitWs "1.0 2.0 3.0 4.0").getD 2 "")).isSome = true ∧
    (pyFloat? ((pySplitWs "1.0 2.0 3.0 4.0").getD 3 "")).isSome = true ∧
    get_ctf_parameters ["1.0 2.0 3.0 4.0"] = .ok none :=
  ⟨rfl, rfl, rfl, rfl, rfl⟩

/-- Claim C7 (amended): parsing skips `#`-prefixed comment lines and also
every line with fewer than five whitespace-separated fields; the fields at
positions 1, 2 and 3 of the first line with at least five fields are
converted with `float` and returned as the calibration triple (a malformed
field raising `ValueError`); when no line qualifies the parse yields the
rejection value, and that rejection is a non-fatal per-item failure:
`process_micrograph` returns `False` with the filesystem untouched and the
run continues with the next item. -/
theorem claim7_amended :
    (∀ lines : List String,
      get_ctf_parameters lines =
        match (lines.filter
            (fun l => !strHeadIs l '#' && decide (5 ≤ (pySplitWs l).length))).head? with
        | none => .ok none
        | some line => parseCtfTriple line) ∧
    (∀ (eng : MatchEngine) (fs : FS) (mpath tpath cdir odir : String)
      (gpus : List Int) (bs : Nat) (num : String) (lines : List String),
      extract_micrograph_number (pyBasename mpath) = some num →
      fsExists fs (pathJoin cdir ("xenon_" ++ num ++ "_0.0_diagnostic.txt")) = true →
      readTextLines fs (pathJoin cdir ("xenon_" ++ num ++ "_0.0_diagnostic.txt")) = .ok lines →
      get_ctf_parameters lines = .ok none →
      process_micrograph eng fs mpath tpath cdir odir gpus bs = .ok (false, fs)) := by
  constructor
  · intro lines
    induction lines with
    | nil => rfl
    | cons l rest ih =>
        by_cases hc : strHeadIs l '#' = true
        · simpa [get_ctf_parameters, hc, List.filter] using ih
        · by_cases h5 : 5 ≤ (pySplitWs l).length
          · simp [get_ctf_parameters, List.filter, hc, h5, parseCtfTriple]
          · simp only [get_ctf_parameters]
            rw [if_neg hc, if_neg h5]
            simpa [List.filter, hc, h5] using ih
  · intro eng fs mpath tpath cdir odir gpus bs num lines hnum hex hlines hctf
    simp only [process_micrograph, hnum, hex, Bool.true_eq_false, if_false, hlines,
      Bind.bind, Except.bind, hctf]

/-- Witness for the amended C7: on a filesystem whose diagnostic file has
only a four-field data line, the item is rejected non-fatally: the
per-item call returns `False` with the filesystem untouched. -/
theorem claim7_witness :
    process_micrograph engOkMatch shortCtfFS "mics/xenon_1_2_a.mrc" "tmpl.yaml" "ctfs" "out"
      [0] 8 = .ok (false, shortCtfFS) :=
  claim7_amended.2 engOkMatch shortCtfFS "mics/xenon_1_2_a.mrc" "tmpl.yaml" "ctfs" "out" [0] 8
    "1_2" ["# header", "1.0 2.0 3.0 4.0"] rfl rfl rfl rfl

/-! ## The derived match configuration: characterization lemmas -/

theorem rewriteKeys_spec (base rdir : String) (ks : List String) :
    ∀ es mtr : List (String × Yaml),
      lookupEntry es "match_template_result" = some (.dict mtr) →
      ks.Nodup →
      (∀ k, k ∈ ks → k ≠ "allow_file_overwrite" →
        ∃ s, lookupEntry mtr k = some (.str s)) →
      ∃ mtr2 : List (String × Yaml),
        rewriteKeys (.dict es) ks base rdir =
          .ok (.dict (setEntry es "match_template_result" (.dict mtr2))) ∧
        (∀ k, lookupEntry mtr2 k =
          if k ∈ ks ∧ k ≠ "allow_file_overwrite"
          then (lookupEntry mtr k).map (rewriteVal base rdir)
          else lookupEntry mtr k) := by
  induction ks with
  | nil =>
      intro es mtr hmtr _ _
      refine ⟨mtr, ?_, ?_⟩
      · simp [rewriteKeys, setEntry_eq_self es _ _ hmtr]
      · intro k
        simp
  | cons k rest ih =>
      intro es mtr hmtr hnodup hstr
      rcases List.nodup_cons.mp hnodup with ⟨hknotin, hrestnodup⟩
      by_cases hallow : k = "allow_file_overwrite"
      · subst hallow
        obtain ⟨mtr2, heq, hchar⟩ := ih es mtr hmtr hrestnodup
          (fun k2 hk2 hk2ne => hstr k2 (List.mem_cons_of_mem _ hk2) hk2ne)
        refine ⟨mtr2, ?_, ?_⟩
        · have hone : rewriteOne (.dict es) base rdir "allow_file_overwrite" =
            .ok (.dict es) := rfl
          simp [rewriteKeys, hone, Bind.bind, Except.bind, heq]
        · intro k2
          rw [hchar k2]
          rcases eq_or_ne k2 "allow_file_overwrite" with he | hne
          · subst he
            simp
          · have hiff : (k2 ∈ rest ∧ k2 ≠ "allow_file_overwrite") ↔
                (k2 ∈ "allow_file_overwrite" :: rest ∧ k2 ≠ "allow_file_overwrite") := by
              constructor
              · rintro ⟨hm, hn⟩
                exact ⟨List.mem_cons_of_mem _ hm, hn⟩
              · rintro ⟨hm, hn⟩
                exact ⟨(List.mem_cons.mp hm).resolve_left hn, hn⟩
            exact if_congr hiff rfl rfl
      · obtain ⟨s, hs⟩ := hstr k (List.mem_cons_self _ _) hallow
        have hone : rewriteOne (.dict es) base rdir k =
            .ok (.dict (setEntry es "match_template_result"
              (.dict (setEntry mtr k (.str (pathJoin rdir (base ++ "_" ++ pyBasename s))))))) := by
          unfold rewriteOne
          rw [if_neg hallow]
          simp [Yaml.getItem, hmtr, Bind.bind, Except.bind, hs, Yaml.setItem2, Yaml.setItem]
        obtain ⟨mtr2, heq, hchar⟩ := ih
          (setEntry es "match_template_result"
            (.dict (setEntry mtr k (.str (pathJoin rdir (base ++ "_" ++ pyBasename s))))))
          (setEntry mtr k (.str (pathJoin rdir (base ++ "_" ++ pyBasename s))))
          (lookupEntry_setEntry_self _ _ _) hrestnodup
          (by
            intro k2 hk2 hne
            have hne2 : k2 ≠ k := fun h => hknotin (h ▸ hk2)
            rw [lookupEntry_setEntry_ne _ _ _ _ hne2]
            exact hstr k2 (List.mem_cons_of_mem _ hk2) hne)
        refine ⟨mtr2, ?_, ?_⟩
        · have hstep : rewriteKeys (.dict es) (k :: rest) base rdir =
              (rewriteOne (.dict es) base rdir k >>= fun c2 => rewriteKeys c2 rest base rdir) :=
            rfl
          rw [hstep, hone]
          simp only [Bind.bind, Except.bind]
          rw [heq, setEntry_setEntry]
        · intro k2
          rw [hchar k2]
          by_cases hk2k : k2 = k
          · subst hk2k
            rw [if_neg (fun hcontra => hknotin hcontra.1),
              lookupEntry_setEntry_self,
              if_pos ⟨List.mem_cons_self _ _, hallow⟩, hs]
            rfl
          · rw [lookupEntry_setEntry_ne _ _ _ _ hk2k]
            by_cases hmem : k2 ∈ rest ∧ k2 ≠ "allow_file_overwrite"
            · rw [if_pos hmem, if_pos ⟨List.mem_cons_of_mem _ hmem.1, hmem.2⟩]
            · rw [if_neg hmem, if_neg (fun hcontra =>
                hmem ⟨(List.mem_cons.mp hcontra.1).resolve_left hk2k, hcontra.2⟩)]

/-- Characterization of the derived match-stage document on a well-formed
template (the overlay groups are mappings, the output-artifact group has
distinct keys and path-valued entries apart from its overwrite flag):
the derivation succeeds; the micrograph path, the three calibration values
and the GPU list are overlaid; every other field of the template — other
top-level keys, other optics keys, other computational keys — is carried
through unchanged; every output-artifact key except `allow_file_overwrite`
is rewritten to the results directory joined with the base-name-prefixed
original filename, and the flag itself is untouched. -/
theorem derive_match_config_spec (es og cc mtr : List (String × Yaml)) (mpath : String)
    (d1 d2 ang : ℚ) (opath : String) (gpus : List Int)
    (hog : lookupEntry es "optics_group" = some (.dict og))
    (hcc : lookupEntry es "computational_config" = some (.dict cc))
    (hmtr : lookupEntry es "match_template_result" = some (.dict mtr))
    (hnodup : (mtr.map Prod.fst).Nodup)
    (hstr : ∀ k, k ∈ mtr.map Prod.fst → k ≠ "allow_file_overwrite" →
      ∃ s, lookupEntry mtr k = some (.str s)) :
    ∃ es6 og3 cc1 mtr2 : List (String × Yaml),
      derive_match_config (.dict es) mpath d1 d2 ang opath gpus = .ok (.dict es6) ∧
      lookupEntry es6 "micrograph_path" = some (.str mpath) ∧
      lookupEntry es6 "optics_group" = some (.dict og3) ∧
      lookupEntry og3 "defocus_u" = some (.rat d1) ∧
      lookupEntry og3 "defocus_v" = some (.rat d2) ∧
      lookupEntry og3 "astigmatism_angle" = some (.rat ang) ∧
      (∀ k, k ≠ "defocus_u" → k ≠ "defocus_v" → k ≠ "astigmatism_angle" →
        lookupEntry og3 k = lookupEntry og k) ∧
      lookupEntry es6 "computational_config" = some (.dict cc1) ∧
      lookupEntry cc1 "gpu_ids" = some (.list (gpus.map Yaml.int)) ∧
      (∀ k, k ≠ "gpu_ids" → lookupEntry cc1 k = lookupEntry cc k) ∧
      lookupEntry es6 "match_template_result" = some (.dict mtr2) ∧
      (∀ k, lookupEntry mtr2 k =
        if k ∈ mtr.map Prod.fst ∧ k ≠ "allow_file_overwrite"
        then (lookupEntry mtr k).map
          (rewriteVal (takeBeforeFirstDot (pyBasename mpath)) (pyDirname opath))
        else lookupEntry mtr k) ∧
      (∀ k, k ≠ "micrograph_path" → k ≠ "optics_group" → k ≠ "computational_config" →
        k ≠ "match_template_result" → lookupEntry es6 k = lookupEntry es k) := by
  set b := takeBeforeFirstDot (pyBasename mpath) with hb
  set rdir := pyDirname opath with hrdir
  set og1 := setEntry og "defocus_u" (Yaml.rat d1) with hog1
  set og2 := setEntry og1 "defocus_v" (Yaml.rat d2) with hog2
  set og3 := setEntry og2 "astigmatism_angle" (Yaml.rat ang) with hog3
  set cc1 := setEntry cc "gpu_ids" (Yaml.list (gpus.map Yaml.int)) with hcc1
  set es1 := setEntry es "micrograph_path" (Yaml.str mpath) with hes1
  set es2 := setEntry es1 "optics_group" (Yaml.dict og1) with hes2
  set es3 := setEntry es2 "optics_group" (Yaml.dict og2) with hes3
  set es4 := setEntry es3 "optics_group" (Yaml.dict og3) with hes4
  set es5 := setEntry es4 "computational_config" (Yaml.dict cc1) with hes5
  have l1 : lookupEntry es1 "optics_group" = some (.dict og) := by
    rw [hes1, lookupEntry_setEntry_ne _ _ _ _ (by decide)]
    exact hog
  have l2 : lookupEntry es2 "optics_group" = some (.dict og1) := by
    rw [hes2, lookupEntry_setEntry_self]
  have l3 : lookupEntry es3 "optics_group" = some (.dict og2) := by
    rw [hes3, lookupEntry_setEntry_self]
  have l4 : lookupEntry es4 "computational_config" = some (.dict cc) := by
    rw [hes4, lookupEntry_setEntry_ne _ _ _ _ (by decide),
      hes3, lookupEntry_setEntry_ne _ _ _ _ (by decide),
      hes2, lookupEntry_setEntry_ne _ _ _ _ (by decide),
      hes1, lookupEntry_setEntry_ne _ _ _ _ (by decide)]
    exact hcc
  have l5 : lookupEntry es5 "match_template_result" = some (.dict mtr) := by
    rw [hes5, lookupEntry_setEntry_ne _ _ _ _ (by decide),
      hes4, lookupEntry_setEntry_ne _ _ _ _ (by decide),
      hes3, lookupEntry_setEntry_ne _ _ _ _ (by decide),
      hes2, lookupEntry_setEntry_ne _ _ _ _ (by decide),
      hes1, lookupEntry_setEntry_ne _ _ _ _ (by decide)]
    exact hmtr
  have hderive : derive_match_config (.dict es) mpath d1 d2 ang opath gpus =
      rewriteKeys (.dict es5) (mtr.map Prod.fst) b rdir := by
    unfold derive_match_config
    simp only [Yaml.setItem, Bind.bind, Except.bind, Yaml.setItem2, Yaml.getItem,
      l1, l2, l3, l4, l5, Yaml.dictKeys]
  obtain ⟨mtr2, heq, hchar⟩ := rewriteKeys_spec b rdir (mtr.map Prod.fst) es5 mtr l5
    hnodup hstr
  refine ⟨setEntry es5 "match_template_result" (.dict mtr2), og3, cc1, mtr2,
    ?_, ?_, ?_, ?_, ?_, ?_, ?_, ?_, ?_, ?_, ?_, hchar, ?_⟩
  · rw [hderive, heq]
  · rw [lookupEntry_setEntry_ne _ _ _ _ (by decide),
      hes5, lookupEntry_setEntry_ne _ _ _ _ (by decide),
      hes4, lookupEntry_setEntry_ne _ _ _ _ (by decide),
      hes3, lookupEntry_setEntry_ne _ _ _ _ (by decide),
      hes2, lookupEntry_setEntry_ne _ _ _ _ (by decide),
      hes1, lookupEntry_setEntry_self]
  · rw [lookupEntry_setEntry_ne _ _ _ _ (by decide),
      hes5, lookupEntry_setEntry_ne _ _ _ _ (by decide),
      hes4, lookupEntry_setEntry_self]
  · rw [hog3, lookupEntry_setEntry_ne _ _ _ _ (by decide),
      hog2, lookupEntry_setEntry_ne _ _ _ _ (by decide),
      hog1, lookupEntry_setEntry_self]
  · rw [hog3, lookupEntry_setEntry_ne _ _ _ _ (by decide),
      hog2, lookupEntry_setEntry_self]
  · rw [hog3, lookupEntry_setEntry_self]
  · intro k hk1 hk2 hk3
    rw [hog3, lookupEntry_setEntry_ne _ _ _ _ hk3,
      hog2, lookupEntry_setEntry_ne _ _ _ _ hk2,
      hog1, lookupEntry_setEntry_ne _ _ _ _ hk1]
  · rw [lookupEntry_setEntry_ne _ _ _ _ (by decide),
      hes5, lookupEntry_setEntry_self]
  · rw [hcc1, lookupEntry_setEntry_self]
  · intro k hk
    rw [hcc1, lookupEntry_setEntry_ne _ _ _ _ hk]
  · rw [lookupEntry_setEntry_self]
  · intro k hk1 hk2 hk3 hk4
    rw [lookupEntry_setEntry_ne _ _ _ _ hk4,
      hes5, lookupEntry_setEntry_ne _ _ _ _ hk3,
      hes4, lookupEntry_setEntry_ne _ _ _ _ hk2,
      hes3, lookupEntry_setEntry_ne _ _ _ _ hk2,
      hes2, lookupEntry_setEntry_ne _ _ _ _ hk2,
      hes1, lookupEntry_setEntry_ne _ _ _ _ hk1]

theorem mem_of_lookupEntry (es : List (String × Yaml)) (k : String) (v : Yaml)
    (h : lookupEntry es k = some v) : k ∈ es.map Prod.fst := by
  induction es with
  | nil => simp [lookupEntry] at h
  | cons e rest ih =>
      obtain ⟨a, b⟩ := e
      by_cases h2 : a = k
      · subst h2
        simp
      · simp [lookupEntry, h2] at h
        simp [ih h]

/-! ## Claim C4: output-path rewriting -/

/-- Claim C4 counterexample: the rewrite does not preserve the directory
component.  For a template whose `mip_path` lives in `orig_dir`, the
derived value is relocated into the results directory `out` (the directory
of the derived config's output path): the filename is prefixed as claimed,
but the directory changes from `orig_dir` to `out`. -/
theorem claim4_counterexample :
    ((derive_match_config matchTemplateDoc "mics/m1.mrc" 1 2 3 "out/m1_config.yaml" [0]).bind
        (fun c => c.getItem "match_template_result")).bind
        (fun m => m.getItem "mip_path") = .ok (.str "out/m1_mip.mrc") ∧
    pyDirname "out/m1_mip.mrc" ≠ pyDirname "orig_dir/mip.mrc" :=
  ⟨rfl, by decide⟩

/-- Claim C4 (amended): on a well-formed template the derivation rewrites
the value of every key in the `match_template_result` group except
`allow_file_overwrite`; the new value is the results directory (the
directory of the derived configuration's output path) joined with the
original path's filename prefixed by the item's base name — the original
directory component is discarded, not preserved.  The overwrite flag is
carried through unchanged. -/
theorem claim4_amended (es og cc mtr : List (String × Yaml)) (mpath : String)
    (d1 d2 ang : ℚ) (opath : String) (gpus : List Int)
    (hog : lookupEntry es "optics_group" = some (.dict og))
    (hcc : lookupEntry es "computational_config" = some (.dict cc))
    (hmtr : lookupEntry es "match_template_result" = some (.dict mtr))
    (hnodup : (mtr.map Prod.fst).Nodup)
    (hstr : ∀ k, k ∈ mtr.map Prod.fst → k ≠ "allow_file_overwrite" →
      ∃ s, lookupEntry mtr k = some (.str s)) :
    ∃ es6 mtr2 : List (String × Yaml),
      derive_match_config (.dict es) mpath d1 d2 ang opath gpus = .ok (.dict es6) ∧
      lookupEntry es6 "match_template_result" = some (.dict mtr2) ∧
      (∀ k s, lookupEntry mtr k = some (.str s) → k ≠ "allow_file_overwrite" →
        lookupEntry mtr2 k = some (.str (pathJoin (pyDirname opath)
          (takeBeforeFirstDot (pyBasename mpath) ++ "_" ++ pyBasename s)))) ∧
      lookupEntry mtr2 "allow_file_overwrite" = lookupEntry mtr "allow_file_overwrite" := by
  obtain ⟨es6, og3, cc1, mtr2, hd, -, -, -, -, -, -, -, -, -, hm, hchar, -⟩ :=
    derive_match_config_spec es og cc mtr mpath d1 d2 ang opath gpus
      hog hcc hmtr hnodup hstr
  refine ⟨es6, mtr2, hd, hm, ?_, ?_⟩
  · intro k s hs hne
    rw [hchar k, if_pos ⟨mem_of_lookupEntry _ _ _ hs, hne⟩, hs]
    rfl
  · rw [hchar "allow_file_overwrite", if_neg (fun hcontra => hcontra.2 rfl)]

/-- Witness for the amended C4 on the representative template: both
artifact keys are rewritten into the shared results directory with the
base-name prefix, and the overwrite flag survives unchanged. -/
theorem claim4_witness :
    ∃ es6 mtr2 : List (String × Yaml),
      derive_match_config matchTemplateDoc "mics/m1.mrc" 1 2 3 "out/m1_config.yaml" [0] =
        .ok (.dict es6) ∧
      lookupEntry es6 "match_template_result" = some (.dict mtr2) ∧
      (∀ k s, lookupEntry [("allow_file_overwrite", Yaml.bool true),
          ("mip_path", Yaml.str "orig_dir/mip.mrc"),
          ("scaled_mip_path", Yaml.str "orig_dir/scaled_mip.mrc")] k = some (.str s) →
        k ≠ "allow_file_overwrite" →
        lookupEntry mtr2 k = some (.str (pathJoin (pyDirname "out/m1_config.yaml")
          (takeBeforeFirstDot (pyBasename "mics/m1.mrc") ++ "_" ++ pyBasename s)))) ∧
      lookupEntry mtr2 "allow_file_overwrite" =
        lookupEntry [("allow_file_overwrite", Yaml.bool true),
          ("mip_path", Yaml.str "orig_dir/mip.mrc"),
          ("scaled_mip_path", Yaml.str "orig_dir/scaled_mip.mrc")] "allow_file_overwrite" :=
  claim4_amended
    [("micrograph_path", .str "placeholder.mrc"),
     ("optics_group", .dict [("defocus_u", .rat 0), ("defocus_v", .rat 0),
        ("astigmatism_angle", .rat 0), ("pixel_size", .rat 1)]),
     ("computational_config", .dict [("gpu_ids", .list []), ("num_cpus", .int 4)]),
     ("match_template_result", .dict [("allow_file_overwrite", .bool true),
        ("mip_path", .str "orig_dir/mip.mrc"),
        ("scaled_mip_path", .str "orig_dir/scaled_mip.mrc")]),
     ("extra_setting", .str "kept")]
    [("defocus_u", .rat 0), ("defocus_v", .rat 0),
        ("astigmatism_angle", .rat 0), ("pixel_size", .rat 1)]
    [("gpu_ids", .list []), ("num_cpus", .int 4)]
    [("allow_file_overwrite", .bool true),
        ("mip_path", .str "orig_dir/mip.mrc"),
        ("scaled_mip_path", .str "orig_dir/scaled_mip.mrc")]
    "mics/m1.mrc" 1 2 3 "out/m1_config.yaml" [0]
    rfl rfl rfl (by decide)
    (by
      intro k hk hne
      simp only [List.map, List.mem_cons, List.not_mem_nil, or_false] at hk
      rcases hk with h | h | h
      · exact absurd h hne
      · exact ⟨"orig_dir/mip.mrc", by rw [h]; rfl⟩
      · exact ⟨"orig_dir/scaled_mip.mrc", by rw [h]; rfl⟩)

/-! ## Claim C10: frame of the derivation -/

/-- Claim C10: the derived match-stage document agrees with the template
everywhere outside the overlaid fields — at every top-level key other than
`micrograph_path`, `optics_group`, `computational_config` and
`match_template_result`; at every `optics_group` key other than the three
calibration fields; and at every `computational_config` key other than
`gpu_ids`. -/
theorem claim10 (es og cc mtr : List (String × Yaml)) (mpath : String)
    (d1 d2 ang : ℚ) (opath : String) (gpus : List Int)
    (hog : lookupEntry es "optics_group" = some (.dict og))
    (hcc : lookupEntry es "computational_config" = some (.dict cc))
    (hmtr : lookupEntry es "match_template_result" = some (.dict mtr))
    (hnodup : (mtr.map Prod.fst).Nodup)
    (hstr : ∀ k, k ∈ mtr.map Prod.fst → k ≠ "allow_file_overwrite" →
      ∃ s, lookupEntry mtr k = some (.str s)) :
    ∃ es6 og3 cc1 : List (String × Yaml),
      derive_match_config (.dict es) mpath d1 d2 ang opath gpus = .ok (.dict es6) ∧
      (∀ k, k ∉ (["micrograph_path", "optics_group", "computational_config",
          "match_template_result"] : List String) →
        lookupEntry es6 k = lookupEntry es k) ∧
      lookupEntry es6 "optics_group" = some (.dict og3) ∧
      (∀ k, k ∉ (["defocus_u", "defocus_v", "astigmatism_angle"] : List String) →
        lookupEntry og3 k = lookupEntry og k) ∧
      lookupEntry es6 "computational_config" = some (.dict cc1) ∧
      (∀ k, k ≠ "gpu_ids" → lookupEntry cc1 k = lookupEntry cc k) := by
  obtain ⟨es6, og3, cc1, mtr2, hd, -, hogl, -, -, -, hogfr, hccl, -, hccfr, -, -, hfr⟩ :=
    derive_match_config_spec es og cc mtr mpath d1 d2 ang opath gpus
      hog hcc hmtr hnodup hstr
  refine ⟨es6, og3, cc1, hd, ?_, hogl, ?_, hccl, hccfr⟩
  · intro k hk
    simp only [List.mem_cons, List.not_mem_nil, or_false, not_or] at hk
    exact hfr k hk.1 hk.2.1 hk.2.2.1 hk.2.2.2
  · intro k hk
    simp only [List.mem_cons, List.not_mem_nil, or_false, not_or] at hk
    exact hogfr k hk.1 hk.2.1 hk.2.2

/-- Witness for C10 on the representative template, whose extra fields
(`extra_setting`, `pixel_size`, `num_cpus`) must all be carried through. -/
theorem claim10_witness :
    ∃ es6 og3 cc1 : List (String × Yaml),
      derive_match_config matchTemplateDoc "mics/m1.mrc" 1 2 3 "out/m1_config.yaml" [0] =
        .ok (.dict es6) ∧
      (∀ k, k ∉ (["micrograph_path", "optics_group", "computational_config",
          "match_template_result"] : List String) →
        lookupEntry es6 k = lookupEntry
          [("micrograph_path", Yaml.str "placeholder.mrc"),
           ("optics_group", Yaml.dict [("defocus_u", Yaml.rat 0), ("defocus_v", Yaml.rat 0),
              ("astigmatism_angle", Yaml.rat 0), ("pixel_size", Yaml.rat 1)]),
           ("computational_config", Yaml.dict [("gpu_ids", Yaml.list []),
              ("num_cpus", Yaml.int 4)]),
           ("match_template_result", Yaml.dict [("allow_file_overwrite", Yaml.bool true),
              ("mip_path", Yaml.str "orig_dir/mip.mrc"),
              ("scaled_mip_path", Yaml.str "orig_dir/scaled_mip.mrc")]),
           ("extra_setting", Yaml.str "kept")] k) ∧
      lookupEntry es6 "optics_group" = some (.dict og3) ∧
      (∀ k, k ∉ (["defocus_u", "defocus_v", "astigmatism_angle"] : List String) →
        lookupEntry og3 k = lookupEntry [("defocus_u", Yaml.rat 0), ("defocus_v", Yaml.rat 0),
          ("astigmatism_angle", Yaml.rat 0), ("pixel_size", Yaml.rat 1)] k) ∧
      lookupEntry es6 "computational_config" = some (.dict cc1) ∧
      (∀ k, k ≠ "gpu_ids" → lookupEntry cc1 k =
        lookupEntry [("gpu_ids", Yaml.list []), ("num_cpus", Yaml.int 4)] k) :=
  claim10
    [("micrograph_path", .str "placeholder.mrc"),
     ("optics_group", .dict [("defocus_u", .rat 0), ("defocus_v", .rat 0),
        ("astigmatism_angle", .rat 0), ("pixel_size", .rat 1)]),
     ("computational_config", .dict [("gpu_ids", .list []), ("num_cpus", .int 4)]),
     ("match_template_result", .dict [("allow_file_overwrite", .bool true),
        ("mip_path", .str "orig_dir/mip.mrc"),
        ("scaled_mip_path", .str "orig_dir/scaled_mip.mrc")]),
     ("extra_setting", .str "kept")]
    [("defocus_u", .rat 0), ("defocus_v", .rat 0),
        ("astigmatism_angle", .rat 0), ("pixel_size", .rat 1)]
    [("gpu_ids", .list []), ("num_cpus", .int 4)]
    [("allow_file_overwrite", .bool true),
        ("mip_path", .str "orig_dir/mip.mrc"),
        ("scaled_mip_path", .str "orig_dir/scaled_mip.mrc")]
    "mics/m1.mrc" 1 2 3 "out/m1_config.yaml" [0]
    rfl rfl rfl (by decide)
    (by
      intro k hk hne
      simp only [List.map, List.mem_cons, List.not_mem_nil, or_false] at hk
      rcases hk with h | h | h
      · exact absurd h hne
      · exact ⟨"orig_dir/mip.mrc", by rw [h]; rfl⟩
      · exact ⟨"orig_dir/scaled_mip.mrc", by rw [h]; rfl⟩)

/-! ## Claim C5: collision freedom of rewritten output paths -/

theorem pyBasename_no_slash (p : String) : ∀ c ∈ (pyBasename p).data, c ≠ '/' := by
  intro c hc
  unfold pyBasename at hc
  rw [List.mem_reverse] at hc
  have := List.mem_takeWhile_imp hc
  simpa using this

theorem takeBeforeFirstDot_no_slash (s : String) (h : ∀ c ∈ s.data, c ≠ '/') :
    ∀ c ∈ (takeBeforeFirstDot s).data, c ≠ '/' := by
  intro c hc
  exact h c (List.takeWhile_subset _ hc)

theorem strHeadIs_slash_base (b f : String) (hb : ∀ c ∈ b.data, c ≠ '/') :
    strHeadIs (b ++ "_" ++ f) '/' = false := by
  unfold strHeadIs
  rw [decide_eq_false_iff_not]
  intro hcontra
  rw [String.data_append, String.data_append] at hcontra
  cases hbd : b.data with
  | nil => rw [hbd] at hcontra; simp at hcontra
  | cons c rest =>
      rw [hbd] at hcontra
      simp only [List.cons_append, List.head?_cons, Option.some.injEq] at hcontra
      exact hb c (by rw [hbd]; exact List.mem_cons_self _ _) hcontra

/-- Rewritten artifact values for two items with distinct base names and no
path separator in either base name are distinct, whatever the shared
results directory. -/
theorem pathJoin_prefix_ne (d b1 b2 f : String)
    (hb1 : ∀ c ∈ b1.data, c ≠ '/') (hb2 : ∀ c ∈ b2.data, c ≠ '/')
    (hne : b1 ≠ b2) :
    pathJoin d (b1 ++ "_" ++ f) ≠ pathJoin d (b2 ++ "_" ++ f) := by
  have h1 := strHeadIs_slash_base b1 f hb1
  have h2 := strHeadIs_slash_base b2 f hb2
  unfold pathJoin
  rw [h1, h2]
  simp only [Bool.false_eq_true, if_false]
  intro hcontra
  apply hne
  by_cases hd : d = "" ∨ strLastIs d '/' = true
  · rw [if_pos hd, if_pos hd] at hcontra
    have hdata := congrArg String.data hcontra
    simp only [String.data_append] at hdata
    have h3 := List.append_cancel_left hdata
    have h4 := List.append_cancel_right h3
    exact String.ext (List.append_cancel_right h4)
  · rw [if_neg hd, if_neg hd] at hcontra
    have hdata := congrArg String.data hcontra
    simp only [String.data_append, List.append_assoc] at hdata
    have h3 := List.append_cancel_left (List.append_cancel_left hdata)
    rw [← List.append_assoc, ← List.append_assoc] at h3
    have h4 := List.append_cancel_right h3
    exact String.ext (List.append_cancel_right h4)

/-- Claim C5 counterexample: two distinct micrographs in the same directory
whose filenames agree up to the first dot (`m1.a.mrc` and `m1.b.mrc`) get
the same base-name prefix `m1`, so their rewritten `mip_path` values in the
shared output directory coincide — the prefix does not guarantee
collision freedom for distinct micrographs. -/
theorem claim5_counterexample :
    ("mics/m1.a.mrc" : String) ≠ "mics/m1.b.mrc" ∧
    ((derive_match_config matchTemplateDoc "mics/m1.a.mrc" 1 2 3 "out/m1.a_config.yaml"
        [0]).bind (fun c => c.getItem "match_template_result")).bind
        (fun m => m.getItem "mip_path") = .ok (.str "out/m1_mip.mrc") ∧
    ((derive_match_config matchTemplateDoc "mics/m1.b.mrc" 1 2 3 "out/m1.b_config.yaml"
        [0]).bind (fun c => c.getItem "match_template_result")).bind
        (fun m => m.getItem "mip_path") = .ok (.str "out/m1_mip.mrc") :=
  ⟨by decide, rfl, rfl⟩

/-- Claim C5 (amended): for two micrographs whose base names — the filename
component up to its first dot — differ, the derived configurations'
rewritten output-artifact values are distinct at every non-flag key when
both derivations target the same results directory.  (Micrographs sharing
a base name collide, per the counterexample.) -/
theorem claim5_amended (es og cc mtr : List (String × Yaml)) (mpath1 mpath2 : String)
    (d1 d2 ang d1b d2b angb : ℚ) (opath1 opath2 : String) (gpus1 gpus2 : List Int)
    (hog : lookupEntry es "optics_group" = some (.dict og))
    (hcc : lookupEntry es "computational_config" = some (.dict cc))
    (hmtr : lookupEntry es "match_template_result" = some (.dict mtr))
    (hnodup : (mtr.map Prod.fst).Nodup)
    (hstr : ∀ k, k ∈ mtr.map Prod.fst → k ≠ "allow_file_overwrite" →
      ∃ s, lookupEntry mtr k = some (.str s))
    (hdir : pyDirname opath1 = pyDirname opath2)
    (hbase : takeBeforeFirstDot (pyBasename mpath1) ≠ takeBeforeFirstDot (pyBasename mpath2)) :
    ∃ es6a mtr2a es6b mtr2b : List (String × Yaml),
      derive_match_config (.dict es) mpath1 d1 d2 ang opath1 gpus1 = .ok (.dict es6a) ∧
      derive_match_config (.dict es) mpath2 d1b d2b angb opath2 gpus2 = .ok (.dict es6b) ∧
      lookupEntry es6a "match_template_result" = some (.dict mtr2a) ∧
      lookupEntry es6b "match_template_result" = some (.dict mtr2b) ∧
      (∀ k s, lookupEntry mtr k = some (.str s) → k ≠ "allow_file_overwrite" →
        lookupEntry mtr2a k ≠ lookupEntry mtr2b k) := by
  obtain ⟨es6a, -, -, mtr2a, hda, -, -, -, -, -, -, -, -, -, hma, hchara, -⟩ :=
    derive_match_config_spec es og cc mtr mpath1 d1 d2 ang opath1 gpus1
      hog hcc hmtr hnodup hstr
  obtain ⟨es6b, -, -, mtr2b, hdb, -, -, -, -, -, -, -, -, -, hmb, hcharb, -⟩ :=
    derive_match_config_spec es og cc mtr mpath2 d1b d2b angb opath2 gpus2
      hog hcc hmtr hnodup hstr
  refine ⟨es6a, mtr2a, es6b, mtr2b, hda, hdb, hma, hmb, ?_⟩
  intro k s hs hne
  have hrwa : lookupEntry mtr2a k = some (.str (pathJoin (pyDirname opath1)
      (takeBeforeFirstDot (pyBasename mpath1) ++ "_" ++ pyBasename s))) := by
    rw [hchara k, if_pos ⟨mem_of_lookupEntry _ _ _ hs, hne⟩, hs]
    rfl
  have hrwb : lookupEntry mtr2b k = some (.str (pathJoin (pyDirname opath2)
      (takeBeforeFirstDot (pyBasename mpath2) ++ "_" ++ pyBasename s))) := by
    rw [hcharb k, if_pos ⟨mem_of_lookupEntry _ _ _ hs, hne⟩, hs]
    rfl
  rw [hrwa, hrwb, hdir]
  intro hcontra
  simp only [Option.some.injEq, Yaml.str.injEq] at hcontra
  exact pathJoin_prefix_ne (pyDirname opath2) _ _ (pyBasename s)
    (takeBeforeFirstDot_no_slash _ (pyBasename_no_slash mpath1))
    (takeBeforeFirstDot_no_slash _ (pyBasename_no_slash mpath2))
    hbase hcontra

/-- Witness for C2 at the spec's examples with n = 10: for j = 4, k = 3 the
selected range is [9, 10) — exactly `["f9"]` — and for j = 5 it is empty. -/
theorem claim2_witness :
    selectRange files10 ⟨some 4, some 3, some 0, some 2⟩ = ["f9"] ∧
    selectRange files10 ⟨some 5, some 3, none, none⟩ = [] :=
  ⟨((claim2 files10 4 3 (some 0) (some 2) (by decide) (by decide)).1).trans (by decide),
   (claim2 files10 5 3 none none (by decide) (by decide)).2.2.1 (by decide)⟩

/-- Witness for the amended C5: two micrographs with distinct base names
derived into the same output directory get distinct rewritten artifact
values at every non-flag key. -/
theorem claim5_witness :
    ∃ es6a mtr2a es6b mtr2b : List (String × Yaml),
      derive_match_config matchTemplateDoc "mics/m1.mrc" 1 2 3 "out/m1_config.yaml" [0] =
        .ok (.dict es6a) ∧
      derive_match_config matchTemplateDoc "mics/m2.mrc" 4 5 6 "out/m2_config.yaml" [1] =
        .ok (.dict es6b) ∧
      lookupEntry es6a "match_template_result" = some (.dict mtr2a) ∧
      lookupEntry es6b "match_template_result" = some (.dict mtr2b) ∧
      (∀ k s, lookupEntry [("allow_file_overwrite", Yaml.bool true),
          ("mip_path", Yaml.str "orig_dir/mip.mrc"),
          ("scaled_mip_path", Yaml.str "orig_dir/scaled_mip.mrc")] k = some (.str s) →
        k ≠ "allow_file_overwrite" →
        lookupEntry mtr2a k ≠ lookupEntry mtr2b k) :=
  claim5_amended
    [("micrograph_path", .str "placeholder.mrc"),
     ("optics_group", .dict [("defocus_u", .rat 0), ("defocus_v", .rat 0),
        ("astigmatism_angle", .rat 0), ("pixel_size", .rat 1)]),
     ("computational_config", .dict [("gpu_ids", .list []), ("num_cpus", .int 4)]),
     ("match_template_result", .dict [("allow_file_overwrite", .bool true),
        ("mip_path", .str "orig_dir/mip.mrc"),
        ("scaled_mip_path", .str "orig_dir/scaled_mip.mrc")]),
     ("extra_setting", .str "kept")]
    [("defocus_u", .rat 0), ("defocus_v", .rat 0),
        ("astigmatism_angle", .rat 0), ("pixel_size", .rat 1)]
    [("gpu_ids", .list []), ("num_cpus", .int 4)]
    [("allow_file_overwrite", .bool true),
        ("mip_path", .str "orig_dir/mip.mrc"),
        ("scaled_mip_path", .str "orig_dir/scaled_mip.mrc")]
    "mics/m1.mrc" "mics/m2.mrc" 1 2 3 4 5 6 "out/m1_config.yaml" "out/m2_config.yaml"
    [0] [1]
    rfl rfl rfl (by decide)
    (by
      intro k hk hne
      simp only [List.map, List.mem_cons, List.not_mem_nil, or_false] at hk
      rcases hk with h | h | h
      · exact absurd h hne
      · exact ⟨"orig_dir/mip.mrc", by rw [h]; rfl⟩
      · exact ⟨"orig_dir/scaled_mip.mrc", by rw [h]; rfl⟩)
    rfl (by decide)

/-! ## Claim C6: idempotent derivation -/

/-- Claim C6: with the template document fixed (its path distinct from the
derived document's output path, so the first run's write cannot change it),
running the configuration derivation a second time on the filesystem left
by the first run produces the same derived document and writes the same
bytes at the same path, leaving the filesystem exactly as the first run
left it. -/
theorem claim6 (fs : FS) (tpath mpath : String) (d1 d2 ang : ℚ) (opath : String)
    (gpus : List Int) (cfg : Yaml) (fs1 : FS)
    (hne : tpath ≠ opath)
    (h1 : create_yaml_for_micrograph fs tpath mpath d1 d2 ang opath gpus = .ok (cfg, fs1)) :
    create_yaml_for_micrograph fs1 tpath mpath d1 d2 ang opath gpus = .ok (cfg, fs1) ∧
    (fsGet fs1 opath).map fileBytes = some (yamlDump cfg) := by
  have hw := create_yaml_ok_shape _ _ _ _ _ _ _ _ _ _ h1
  have hread : readYamlDoc fs1 tpath = readYamlDoc fs tpath := by
    unfold readYamlDoc
    rw [hw, fsGet_fsWrite_ne _ _ _ _ hne]
  constructor
  · unfold create_yaml_for_micrograph at h1 ⊢
    rw [hread]
    cases hr : readYamlDoc fs tpath with
    | error e => rw [hr] at h1; exact Except.noConfusion h1
    | ok c0 =>
        simp only [hr, Bind.bind, Except.bind] at h1 ⊢
        cases hd : derive_match_config c0 mpath d1 d2 ang opath gpus with
        | error e => rw [hd] at h1; exact Except.noConfusion h1
        | ok c =>
            simp only [hd, Except.ok.injEq, Prod.mk.injEq] at h1 ⊢
            obtain ⟨hc, hfs⟩ := h1
            subst hc
            rw [hw, fsWrite_fsWrite]
            exact ⟨rfl, rfl⟩
  · rw [hw, fsGet_fsWrite_self]
    rfl

/-- Witness for C6: the second derivation on the filesystem produced by the
first run over `goodCtfFS` returns the identical document and state. -/
theorem claim6_witness :
    create_yaml_for_micrograph goodDerived.2 "tmpl.yaml" "mics/xenon_1_2_a.mrc"
      goodCtf.1 goodCtf.2.1 goodCtf.2.2 "out/xenon_1_2_a_config.yaml" [0] =
      .ok (goodDerived.1, goodDerived.2) ∧
    (fsGet goodDerived.2 "out/xenon_1_2_a_config.yaml").map fileBytes =
      some (yamlDump goodDerived.1) :=
  claim6 goodCtfFS "tmpl.yaml" "mics/xenon_1_2_a.mrc" goodCtf.1 goodCtf.2.1 goodCtf.2.2
    "out/xenon_1_2_a_config.yaml" [0] goodDerived.1 goodDerived.2 (by decide) rfl

/-! ## Claim C8: crop extraction -/

theorem getD_map_range {α : Type} (n i : Nat) (f : Nat → α) (d : α) (h : i < n) :
    ((List.range n).map f).getD i d = f i := by
  rw [List.getD_eq_getElem?_getD, List.getElem?_map, List.getElem?_range h]
  rfl

/-- Claim C8 counterexample: at the low image corner (0, 0) the two
out-of-bounds sides of the requested 4-box are the top and the left (two
rows and two columns each), but the produced buffer holds the clamped
pixels at its top-left and the zero padding on the bottom and right — cell
(0, 0), which the claim requires to be padding, holds an image pixel. -/
theorem claim8_counterexample :
    cropParticle (fun _ _ => 1) 4 4 4 0 0 =
      some [[1, 1, 0, 0], [1, 1, 0, 0], [0, 0, 0, 0], [0, 0, 0, 0]] ∧
    ¬ zeroPaddingOnOutOfBoundsSides
      [[1, 1, 0, 0], [1, 1, 0, 0], [0, 0, 0, 0], [0, 0, 0, 0]] 4 2 2 := by
  refine ⟨rfl, ?_⟩
  intro hpad
  have := hpad 0 (by norm_num) 0 (by norm_num) (Or.inl (by norm_num))
  simp at this

/-- Claim C8 (amended): the crop region about the integer center is clamped
to the image bounds; the row is skipped (with a logged warning) exactly
when the clamped region is degenerate; otherwise the output buffer has the
requested box size and holds the clamped pixels placed at its low-index
corner, with zeros filling the remaining high-index cells — so the zero
padding always sits on the high-index sides of the buffer, regardless of
which sides of the requested box were out of bounds. -/
theorem claim8_amended (micrograph : Nat → Nat → Int) (h w box_size : Nat) (cx cy : Int) :
    (cropParticle micrograph h w box_size cx cy = none ↔
      min (w : Int) (cx + (box_size : Int) / 2) ≤ max 0 (cx - (box_size : Int) / 2) ∨
      min (h : Int) (cy + (box_size : Int) / 2) ≤ max 0 (cy - (box_size : Int) / 2)) ∧
    (∀ m, cropParticle micrograph h w box_size cx cy = some m →
      m.length = box_size ∧
      ∀ i, i < box_size →
        (m.getD i []).length = box_size ∧
        ∀ j, j < box_size →
          (m.getD i []).getD j 0 =
            if (i : Int) < min (h : Int) (cy + (box_size : Int) / 2) -
                  max 0 (cy - (box_size : Int) / 2) ∧
               (j : Int) < min (w : Int) (cx + (box_size : Int) / 2) -
                  max 0 (cx - (box_size : Int) / 2)
            then micrograph ((max 0 (cy - (box_size : Int) / 2)).toNat + i)
                   ((max 0 (cx - (box_size : Int) / 2)).toNat + j)
            else 0) := by
  constructor
  · simp only [cropParticle]
    by_cases hc : min (w : Int) (cx + (box_size : Int) / 2) ≤
        max 0 (cx - (box_size : Int) / 2) ∨
        min (h : Int) (cy + (box_size : Int) / 2) ≤ max 0 (cy - (box_size : Int) / 2)
    · rw [if_pos hc]
      exact ⟨fun _ => hc, fun _ => rfl⟩
    · rw [if_neg hc]
      exact ⟨fun hcontra => Option.noConfusion hcontra, fun hcond => absurd hcond hc⟩
  · intro m hm
    simp only [cropParticle] at hm
    by_cases hc : min (w : Int) (cx + (box_size : Int) / 2) ≤
        max 0 (cx - (box_size : Int) / 2) ∨
        min (h : Int) (cy + (box_size : Int) / 2) ≤ max 0 (cy - (box_size : Int) / 2)
    · rw [if_pos hc] at hm
      exact Option.noConfusion hm
    · rw [if_neg hc] at hm
      have hm2 : ((List.range box_size).map (fun i =>
          (List.range box_size).map (fun j =>
            if i < min (min (h : Int) (cy + (box_size : Int) / 2) -
                  max 0 (cy - (box_size : Int) / 2)).toNat box_size ∧
               j < min (min (w : Int) (cx + (box_size : Int) / 2) -
                  max 0 (cx - (box_size : Int) / 2)).toNat box_size
            then micrograph ((max 0 (cy - (box_size : Int) / 2)).toNat + i)
                   ((max 0 (cx - (box_size : Int) / 2)).toNat + j)
            else 0))) = m := Option.some.inj hm
      subst hm2
      refine ⟨by simp, ?_⟩
      intro i hi
      rw [getD_map_range _ _ _ _ hi]
      refine ⟨by simp, ?_⟩
      intro j hj
      rw [getD_map_range _ _ _ _ hj]
      exact if_congr (by omega) rfl rfl

/-- Witness for the amended C8: a center far outside the image is skipped;
the high-corner crop has box-size shape and carries the image pixel
shifted to the buffer's low corner. -/
theorem claim8_witness :
    cropParticle (fun i j => (10 * i + j : Int)) 4 4 4 (-5) 0 = none ∧
    cropExample.length = 4 ∧
    (cropExample.getD 0 []).getD 0 0 = 10 * 1 + 1 := by
  refine ⟨?_, ?_, ?_⟩
  · exact (claim8_amended (fun i j => (10 * i + j : Int)) 4 4 4 (-5) 0).1.mpr
      (Or.inl (by decide))
  · exact (((claim8_amended (fun i j => (10 * i + j : Int)) 4 4 4 3 3).2
      cropExample rfl).1)
  · rw [((((claim8_amended (fun i j => (10 * i + j : Int)) 4 4 4 3 3).2
      cropExample rfl).2 0 (by decide)).2 0 (by decide))]
    decide

/-! ## Claim C9: interrupt handling in the constrained-search run -/

/-- Claim C9 (code bug): on an interrupted constrained-search run the
interrupt is caught at the run level, the durable log is flushed and
closed, and the process exits with status 0 — but the final summary is
never written to the durable log: the `finally` block has already closed
the log file when the summary block's "log still open" guard runs, so that
block is unreachable and only the console receives a success-count line.
The claim's final-summary logging is exactly what the dead block would
do. -/
theorem claim9_code_bug :
    interruptedRun.1 = 0 ∧
    interruptedRun.2.logOpen = false ∧
    interruptedRun.2.log.contains "Processing interrupted by user (Ctrl+C)" = true ∧
    interruptedRun.2.log.contains "INFO: Processing complete!" = false ∧
    interruptedRun.2.log.contains
      "INFO: Successfully completed constrained search for 0/1 micrographs" = false ∧
    interruptedRun.2.log.contains "INFO: Failed: 1/1 micrographs" = false ∧
    interruptedRun.2.console.contains
      "Successfully completed constrained search for 0/1 micrographs" = true :=
  ⟨rfl, rfl, rfl, rfl, rfl, rfl, rfl⟩
